import Mathlib

/-!
# The_Researcher dashboard: gauge geometry and archive accuracy

A shallow embedding of the scoring logic of the dashboard scripts:

* `createCircularGauge`, `getRatingFromScore` and `createProbabilityBar` of
  `static/danelfin_ui.js` (confidence gauge, rating tier, probability colour);
* the `DAILY` branch of `renderArchiveCards` of `static/danelfin_ui.js` (sentiment and
  price accuracy badges);
* the weekly and monthly branch of `renderArchiveCards`;
* the history performance block of `renderCards` (`static/script.js`) and of
  `renderCards_fixed` (`static/script_fixed.js`);
* `updateMarketStatus` (`static/script.js`, `static/script_backup.js`) and the confidence
  bar of `renderDailyCards` (`static/daily_pro.js`) and `renderWeeklyCards`
  (`static/weekly.js`).

Numbers are idealised: a JavaScript number is a rational, `Infinity`, `-Infinity` or
`NaN`, arithmetic on finite values is exact (no rounding, no overflow) and the zero is
unsigned.  Values read from a JSON payload are finite numbers, `null`, or absent
(`undefined`).

JavaScript evaluates `((close - open) / open) * 100` in binary64, and the roundings can
move a value across a threshold (`0.2`, a tie of `toFixed(2)`).  The definitions whose
name ends in `_of` therefore take the evaluation of that expression as the parameter
`moveOf`; what is proved of them holds for every evaluation, the binary64 one included,
and `exactMove` is the evaluation in exact arithmetic.  What follows the evaluation is
the same in binary64 and here: `toFixed(2)` rounds the exact value of the number it is
called on, the thresholds `0` and `0.5` are binary64 values, and no binary64 value lies
between `1/5` and the binary64 value of the literal `0.2`, so that a binary64 move is
below the one iff it is below the other.
-/

namespace Researcher

/-! ## JavaScript numbers -/

/-- A JavaScript number: a finite value, one of the two infinities, or `NaN`. -/
inductive JSNum where
  | fin (q : ℚ)
  | posInf
  | negInf
  | nan
  deriving DecidableEq

namespace JSNum

/-- The binary `-` of JavaScript on numbers. -/
def sub : JSNum → JSNum → JSNum
  | fin a, fin b => fin (a - b)
  | fin _, posInf => negInf
  | fin _, negInf => posInf
  | posInf, fin _ => posInf
  | posInf, negInf => posInf
  | negInf, fin _ => negInf
  | negInf, posInf => negInf
  | _, _ => nan

/-- The `*` of JavaScript on numbers (`Infinity * 0` is `NaN`). -/
def mul : JSNum → JSNum → JSNum
  | fin a, fin b => fin (a * b)
  | nan, _ => nan
  | _, nan => nan
  | posInf, posInf => posInf
  | posInf, negInf => negInf
  | negInf, posInf => negInf
  | negInf, negInf => posInf
  | posInf, fin b => if b = 0 then nan else if 0 < b then posInf else negInf
  | negInf, fin b => if b = 0 then nan else if 0 < b then negInf else posInf
  | fin a, posInf => if a = 0 then nan else if 0 < a then posInf else negInf
  | fin a, negInf => if a = 0 then nan else if 0 < a then negInf else posInf

/-- The `/` of JavaScript on numbers: a finite non-zero value over zero is an infinity,
`0 / 0` is `NaN`. -/
def div : JSNum → JSNum → JSNum
  | fin a, fin b =>
      if b = 0 then (if a = 0 then nan else if 0 < a then posInf else negInf)
      else fin (a / b)
  | fin _, posInf => fin 0
  | fin _, negInf => fin 0
  | posInf, fin b => if 0 ≤ b then posInf else negInf
  | negInf, fin b => if 0 ≤ b then negInf else posInf
  | _, _ => nan

/-- The result of `Math.abs`. -/
def abs : JSNum → JSNum
  | fin a => fin |a|
  | posInf => posInf
  | negInf => posInf
  | nan => nan

/-- The `<` of JavaScript on numbers: false as soon as an operand is `NaN`. -/
def lt : JSNum → JSNum → Bool
  | fin a, fin b => decide (a < b)
  | fin _, posInf => true
  | fin _, negInf => false
  | fin _, nan => false
  | posInf, _ => false
  | negInf, fin _ => true
  | negInf, posInf => true
  | negInf, negInf => false
  | negInf, nan => false
  | nan, _ => false

/-- The `<=` of JavaScript on numbers: false as soon as an operand is `NaN`. -/
def le : JSNum → JSNum → Bool
  | fin a, fin b => decide (a ≤ b)
  | fin _, posInf => true
  | fin _, negInf => false
  | fin _, nan => false
  | posInf, posInf => true
  | posInf, _ => false
  | negInf, nan => false
  | negInf, _ => true
  | nan, _ => false

/-- The `>=` of JavaScript on numbers. -/
def ge (a b : JSNum) : Bool := le b a

/-- The `>` of JavaScript on numbers. -/
def gt (a b : JSNum) : Bool := lt b a

/-- Truthiness of a number: `0` and `NaN` are falsy. -/
def truthy : JSNum → Bool
  | fin a => decide (a ≠ 0)
  | posInf => true
  | negInf => true
  | nan => false

/-- The `a || b` of JavaScript on numbers. -/
def orElse (a b : JSNum) : JSNum := if a.truthy then a else b

end JSNum

/-- The value of `Math.PI`: the double nearest to π, `0x400921FB54442D18`. -/
def Math_PI : ℚ := 884279719003555 / 281474976710656

/-! ## `createCircularGauge` and `getRatingFromScore` -/

/-- The result of `s.toLowerCase().replace(/ /g, '-')`. -/
def lowerHyphen (s : String) : String :=
  String.mk ((s.toList.map Char.toLower).map fun c => if c = ' ' then '-' else c)

/-- The values interpolated into the gauge markup. -/
structure GaugeHtml where
  stroke : String
  strokeDasharray : JSNum
  strokeDashoffset : JSNum
  scoreColor : String
  scoreText : JSNum
  deriving DecidableEq

/-- The local variables of `createCircularGauge` together with the markup values. -/
structure Gauge where
  percentage : JSNum
  angle : JSNum
  circumference : JSNum
  offset : JSNum
  color : String
  rating : String
  ratingClass : String
  html : GaugeHtml
  deriving DecidableEq

/-- The colour and rating chosen by the `if` chain of `createCircularGauge`. -/
def gaugeColorRating (score : JSNum) : String × String :=
  if score.ge (.fin 9) then ("#22c55e", "Strong Buy")
  else if score.ge (.fin 7) then ("#a3e635", "Buy")
  else if score.ge (.fin 5) then ("#fbbf24", "Hold")
  else if score.ge (.fin 3) then ("#fb923c", "Sell")
  else ("#ef4444", "Strong Sell")

/-- The function `createCircularGauge(score, maxScore)`; callers that omit `maxScore`
pass `10`. -/
def createCircularGauge (score maxScore : JSNum) : Gauge :=
  let percentage := (score.div maxScore).mul (.fin 100)
  let angle := (percentage.div (.fin 100)).mul (.fin 270)
  let circumference := JSNum.fin (2 * Math_PI * 45)
  let offset := circumference.sub ((angle.div (.fin 360)).mul circumference)
  let color := (gaugeColorRating score).1
  let rating := (gaugeColorRating score).2
  { percentage := percentage
    angle := angle
    circumference := circumference
    offset := offset
    color := color
    rating := rating
    ratingClass := lowerHyphen rating
    html :=
      { stroke := color
        strokeDasharray := circumference
        strokeDashoffset := offset
        scoreColor := color
        scoreText := score } }

/-- The object returned by `getRatingFromScore`. -/
structure Rating where
  label : String
  cls : String
  deriving DecidableEq

/-- The function `getRatingFromScore(score)`. -/
def getRatingFromScore (score : JSNum) : Rating :=
  if score.ge (.fin 9) then { label := "Strong Buy", cls := "strong-buy" }
  else if score.ge (.fin 7) then { label := "Buy", cls := "buy" }
  else if score.ge (.fin 5) then { label := "Hold", cls := "hold" }
  else if score.ge (.fin 3) then { label := "Sell", cls := "sell" }
  else { label := "Strong Sell", cls := "strong-sell" }

/-! ## The daily branch of `renderArchiveCards` -/

/-- A value read from a JSON record: a finite number, `null`, or an absent property. -/
inductive JSVal where
  | num (q : ℚ)
  | null
  | undefined
  deriving DecidableEq

namespace JSVal

/-- Truthiness: `0`, `null` and `undefined` are falsy. -/
def truthy : JSVal → Bool
  | num q => decide (q ≠ 0)
  | null => false
  | undefined => false

/-- The conversion `ToNumber` applied by arithmetic and comparison operators. -/
def toNumber : JSVal → JSNum
  | num q => .fin q
  | null => .fin 0
  | undefined => .nan

/-- The result of `parseFloat(v)`: the value is first turned into a string, so `null` and
`undefined` give `NaN`. -/
def parseFloat : JSVal → JSNum
  | num q => .fin q
  | null => .nan
  | undefined => .nan

end JSVal

/-- The string returned by `toFixed`: an optional minus sign followed by the digits of a
non-negative magnitude, or one of `NaN`, `Infinity`, `-Infinity`. -/
inductive NumStr where
  | dec (neg : Bool) (mag : ℚ)
  | nanStr
  | infStr (neg : Bool)
  deriving DecidableEq

namespace NumStr

/-- The number a `toFixed` string denotes, both under `ToNumber` (as applied by `>=`) and
under `parseFloat`; the string `-0.00` denotes zero. -/
def toNumber : NumStr → JSNum
  | dec neg mag => .fin (if neg then -mag else mag)
  | nanStr => .nan
  | infStr false => .posInf
  | infStr true => .negInf

end NumStr

/-- The magnitude printed by `x.toFixed(2)` for a finite `x`, `x` being the exact value
of the number the method is called on: `|x|` rounded to the nearest hundredth, the larger
one on a tie; from `10^21` on the magnitude is printed as is. -/
def fixed2Mag (x : ℚ) : ℚ :=
  if (10 : ℚ) ^ 21 ≤ |x| then |x| else ((⌊|x| * 100 + 1 / 2⌋ : ℤ) : ℚ) / 100

/-- The method `x.toFixed(2)`: the sign of `x` is taken first, then the magnitude is
rounded. -/
def toFixed2 : JSNum → NumStr
  | .fin x => .dec (decide (x < 0)) (fixed2Mag x)
  | .posInf => .infStr false
  | .negInf => .infStr true
  | .nan => .nanStr

/-- The number denoted by the string `x.toFixed(2)` for a finite `x`. -/
def fixed2Value (x : ℚ) : ℚ := if x < 0 then -fixed2Mag x else fixed2Mag x

/-- The `market_data` object of an archive record. -/
structure MarketData where
  open_ : JSVal
  close : JSVal
  prev_close : JSVal
  deriving DecidableEq

/-- An accuracy badge of the archive card. -/
inductive Badge where
  | pending
  | correct
  | incorrect
  deriving DecidableEq

/-- A run-time error of JavaScript. -/
inductive JSError where
  | typeError
  deriving DecidableEq

/-- The number `ToNumber` gives for the local `actualMove`, which is `null` or a string. -/
def actualMoveToNumber : Option NumStr → JSNum
  | none => .fin 0
  | some s => s.toNumber

/-- The local variables and badges of one card of the `DAILY` branch. -/
structure DailyCard where
  actualMove : Option NumStr
  predictedMove : JSNum
  predictedDirection : String
  actualDirection : String
  sentimentCorrect : Bool
  priceCorrect : Option Bool
  sentimentBadge : Badge
  priceBadge : Badge
  deriving DecidableEq

/-- The body of the `forEach` of `renderArchiveCards` for `timeframe === 'DAILY'`, on a record
whose `prediction.predicted_move` is `predicted_move` and whose `market_data` is `market`
(`none` when it is `null` or absent: reading `market.close` then throws). -/
def renderArchiveCards_daily (predicted_move : JSVal) (market : Option MarketData) :
    Except JSError DailyCard :=
  match market with
  | none => .error .typeError
  | some market =>
    let actualMove : Option NumStr :=
      if market.close.truthy && market.open_.truthy then
        some (toFixed2
          (((market.close.toNumber.sub market.open_.toNumber).div market.open_.toNumber).mul
            (.fin 100)))
      else none
    let predictedMove := (predicted_move.parseFloat).orElse (.fin 0)
    let predictedDirection := if predictedMove.ge (.fin 0) then "UP" else "DOWN"
    let actualDirection := if (actualMoveToNumber actualMove).ge (.fin 0) then "UP" else "DOWN"
    let sentimentCorrect := decide (predictedDirection = actualDirection)
    let priceCorrect : Option Bool :=
      match actualMove with
      | some s => some (((predictedMove.sub s.toNumber).abs).le (.fin (1 / 2)))
      | none => none
    let sentimentBadge :=
      match actualMove with
      | none => Badge.pending
      | some _ => if sentimentCorrect then Badge.correct else Badge.incorrect
    let priceBadge :=
      match priceCorrect with
      | none => Badge.pending
      | some true => Badge.correct
      | some false => Badge.incorrect
    .ok
      { actualMove := actualMove
        predictedMove := predictedMove
        predictedDirection := predictedDirection
        actualDirection := actualDirection
        sentimentCorrect := sentimentCorrect
        priceCorrect := priceCorrect
        sentimentBadge := sentimentBadge
        priceBadge := priceBadge }

/-! ## `createCircularGauge` on a value read from JSON -/

/-- The call `createCircularGauge(score, maxScore)` on a value read from JSON. -/
structure GaugeCall where
  gauge : Gauge
  scoreText : JSVal
  deriving DecidableEq

/-- The call `createCircularGauge(score, maxScore)` when `score` is a value read from JSON:
the division and the comparisons see `ToNumber(score)`, so `gauge` holds the locals and
markup values computed from it, while the template prints the value itself in
`scoreText`. -/
def createCircularGauge_json (score : JSVal) (maxScore : JSNum) : GaugeCall :=
  { gauge := createCircularGauge score.toNumber maxScore
    scoreText := score }

/-- The rank of a rating in the order Strong Sell < Sell < Hold < Buy < Strong Buy. -/
def tierRank (rating : String) : Option ℕ :=
  if rating = "Strong Sell" then some 0
  else if rating = "Sell" then some 1
  else if rating = "Hold" then some 2
  else if rating = "Buy" then some 3
  else if rating = "Strong Buy" then some 4
  else none

/-! ## `createProbabilityBar` -/

/-- The magnitude printed by `x.toFixed(0)` for a finite `x`: `|x|` rounded to the nearest
integer, the larger one on a tie; from `10^21` on the magnitude is printed as is. -/
def fixed0Mag (x : ℚ) : ℚ :=
  if (10 : ℚ) ^ 21 ≤ |x| then |x| else ((⌊|x| + 1 / 2⌋ : ℤ) : ℚ)

/-- The method `x.toFixed(0)`. -/
def toFixed0 : JSNum → NumStr
  | .fin x => .dec (decide (x < 0)) (fixed0Mag x)
  | .posInf => .infStr false
  | .negInf => .infStr true
  | .nan => .nanStr

/-- The local variables of `createProbabilityBar` and the percentage it prints. -/
structure ProbabilityBar where
  position : JSNum
  color : String
  percentText : NumStr
  deriving DecidableEq

/-- The function `createProbabilityBar(probability, direction)`. -/
def createProbabilityBar (probability : JSNum) (_direction : String) : ProbabilityBar :=
  let position := probability.mul (.fin 100)
  let color :=
    if probability.ge (.fin 0.7) then "#22c55e"
    else if probability.ge (.fin 0.5) then "#a3e635"
    else if probability.ge (.fin 0.3) then "#fbbf24"
    else "#ef4444"
  { position := position
    color := color
    percentText := toFixed0 (probability.mul (.fin 100)) }

/-! ## The history performance block of `renderCards` (`script.js`) -/

/-- The `price` object of a card record. -/
structure PriceData where
  close : JSVal
  open_ : JSVal
  deriving DecidableEq

/-- The `prediction` object of a card record, reduced to the field the performance
block reads; a direction that is no string behaves as a string other than `UP`, `DOWN`
and `NEUTRAL`. -/
structure Prediction where
  direction : String
  deriving DecidableEq

/-- The local variables of the performance block and the values it prints. -/
structure Performance where
  actualMovePercent : JSNum
  actualDirection : String
  predictionCorrect : Bool
  resultClass : String
  moveClass : String
  movePrefix : String
  moveText : NumStr
  verdict : String
  deriving DecidableEq

/-- The value of `performanceHtml` in one pass of the `forEach` of
`renderCards(companies, isHistory)`: `none` is the empty string, `some` the
performance-comparison block. A missing `prediction` or `price` takes its default. -/
def renderCards_performance (isHistory : Bool) (pred : Option Prediction)
    (price : Option PriceData) : Option Performance :=
  let prediction := pred.getD { direction := "NEUTRAL" }
  let priceData := price.getD { close := .num 0, open_ := .num 0 }
  if (isHistory && priceData.open_.truthy) && priceData.close.truthy then
    let actualMovePercent :=
      ((priceData.close.toNumber.sub priceData.open_.toNumber).div
        priceData.open_.toNumber).mul (.fin 100)
    let actualDirection :=
      if actualMovePercent.gt (.fin 0) then "UP"
      else if actualMovePercent.lt (.fin 0) then "DOWN" else "NEUTRAL"
    let predictionCorrect := false
    let predictionCorrect :=
      if prediction.direction = "UP" ∧ actualDirection = "UP" then true
      else predictionCorrect
    let predictionCorrect :=
      if prediction.direction = "DOWN" ∧ actualDirection = "DOWN" then true
      else predictionCorrect
    let predictionCorrect :=
      if prediction.direction = "NEUTRAL" ∧ actualMovePercent.abs.lt (.fin 0.2) = true then true
      else predictionCorrect
    some
      { actualMovePercent := actualMovePercent
        actualDirection := actualDirection
        predictionCorrect := predictionCorrect
        resultClass := if predictionCorrect then "text-green" else "text-red"
        moveClass := if actualMovePercent.ge (.fin 0) then "up-color" else "down-color"
        movePrefix := if actualMovePercent.gt (.fin 0) then "+" else ""
        moveText := toFixed2 actualMovePercent
        verdict := if predictionCorrect then "Correct" else "Missed" }
  else none

/-! ## One pass of `renderCards_fixed` (`script_fixed.js`) -/

/-- The `company` object read by `renderCards_fixed`. -/
structure Company where
  symbol : String
  short_name : String
  is_index : Bool
  deriving DecidableEq

/-- The `prediction` object read by `renderCards_fixed`, reduced to the fields the
performance block reads. -/
structure FixedPrediction where
  direction : String
  actual_open : JSVal
  actual_close : JSVal
  deriving DecidableEq

/-- A record handed to `renderCards_fixed`: each of the four destructured properties is
`none` when the record does not carry it; `fundamentals` holds the `stock_pe` of the
object. -/
structure FixedRecord where
  company : Option Company
  prediction : Option FixedPrediction
  price : Option PriceData
  fundamentals : Option JSVal
  deriving DecidableEq

/-- The local variables of the performance block of `renderCards_fixed`; `verdict` is
the word printed after the tick or cross mark. -/
structure FixedPerformance where
  actual_move : NumStr
  isCorrect : Bool
  movePrefix : String
  verdict : String
  deriving DecidableEq

/-- One pass of the `forEach` of `renderCards_fixed`, with `state.currentView` equal to
`currentView`: the value of `performanceHtml` in the card that is appended (`none` is the
empty string), or the `TypeError` thrown before any card is appended. The pass throws
when it reads `pred.direction` on a record without `prediction`, `company.symbol` on a
record without `company`, `price.close` on a record without `price`, and, outside the
history view for a company that is no index, `fund.stock_pe` on a record without
`fundamentals`. -/
def renderCards_fixed_performance (currentView : String) (r : FixedRecord) :
    Except JSError (Option FixedPerformance) :=
  match r.prediction with
  | none => .error .typeError
  | some pred =>
    let isHistory := decide (currentView = "history")
    let performanceHtml : Option FixedPerformance :=
      if (isHistory && pred.actual_open.truthy) && pred.actual_close.truthy then
        let actual_move :=
          toFixed2
            (((pred.actual_close.toNumber.sub pred.actual_open.toNumber).div
              pred.actual_open.toNumber).mul (.fin 100))
        let isCorrect :=
          (decide (pred.direction = "UP") && actual_move.toNumber.gt (.fin 0)) ||
            (decide (pred.direction = "DOWN") && actual_move.toNumber.lt (.fin 0))
        some
          { actual_move := actual_move
            isCorrect := isCorrect
            movePrefix := if actual_move.toNumber.gt (.fin 0) then "+" else ""
            verdict := if isCorrect then "CORRECT" else "INCORRECT" }
      else none
    match r.company with
    | none => .error .typeError
    | some company =>
      match r.price with
      | none => .error .typeError
      | some _ =>
        if (!isHistory && !company.is_index) && r.fundamentals.isNone then
          .error .typeError
        else .ok performanceHtml

/-! ## The daily card from the parsed prediction, and its `Actual:` line -/

/-- The body of the `DAILY` branch of `renderArchiveCards` from the point where
`parseFloat(pred.predicted_move)` has been evaluated to `parsed`; a text that does not
parse gives `NaN` there. -/
def renderArchiveCards_daily_from (parsed : JSNum) (market : Option MarketData) :
    Except JSError DailyCard :=
  match market with
  | none => .error .typeError
  | some market =>
    let actualMove : Option NumStr :=
      if market.close.truthy && market.open_.truthy then
        some (toFixed2
          (((market.close.toNumber.sub market.open_.toNumber).div market.open_.toNumber).mul
            (.fin 100)))
      else none
    let predictedMove := parsed.orElse (.fin 0)
    let predictedDirection := if predictedMove.ge (.fin 0) then "UP" else "DOWN"
    let actualDirection := if (actualMoveToNumber actualMove).ge (.fin 0) then "UP" else "DOWN"
    let sentimentCorrect := decide (predictedDirection = actualDirection)
    let priceCorrect : Option Bool :=
      match actualMove with
      | some s => some (((predictedMove.sub s.toNumber).abs).le (.fin (1 / 2)))
      | none => none
    let sentimentBadge :=
      match actualMove with
      | none => Badge.pending
      | some _ => if sentimentCorrect then Badge.correct else Badge.incorrect
    let priceBadge :=
      match priceCorrect with
      | none => Badge.pending
      | some true => Badge.correct
      | some false => Badge.incorrect
    .ok
      { actualMove := actualMove
        predictedMove := predictedMove
        predictedDirection := predictedDirection
        actualDirection := actualDirection
        sentimentCorrect := sentimentCorrect
        priceCorrect := priceCorrect
        sentimentBadge := sentimentBadge
        priceBadge := priceBadge }

namespace NumStr

/-- Whether the string begins with a minus sign. -/
def hasMinus : NumStr → Bool
  | dec neg _ => neg
  | nanStr => false
  | infStr neg => neg

end NumStr

/-- The `Actual:` line of the daily card: its colour, the sign written before the string
and the string itself. -/
structure ActualLine where
  color : String
  sign : String
  move : NumStr
  deriving DecidableEq

/-- The `Actual:` line the daily card prints for the local `actualMove`: `none` (no
line) when `actualMove` is `null`. -/
def actualLine (actualMove : Option NumStr) : Option ActualLine :=
  match actualMove with
  | none => none
  | some s =>
    some
      { color := if s.toNumber.ge (.fin 0) then "#22c55e" else "#ef4444"
        sign := if s.toNumber.ge (.fin 0) then "+" else ""
        move := s }

/-! ## The weekly and monthly branch of `renderArchiveCards` -/

/-- The local variables of one card of the branch for timeframes other than `DAILY`;
`statusBadge` is the word of the badge and `result` what the `Result:` line shows. -/
structure OtherCard where
  isCorrect : Bool
  statusBadge : String
  result : String
  deriving DecidableEq

/-- The body of the `forEach` of `renderArchiveCards` for a timeframe other than `DAILY`,
on a record whose `prediction.direction` is `direction` (`market` is `none` when
`market_data` is `null` or absent: reading `market.close` then throws). -/
def renderArchiveCards_other (direction : String) (market : Option MarketData) :
    Except JSError OtherCard :=
  match market with
  | none => .error .typeError
  | some market =>
    let isCorrect :=
      (decide (direction = "UP") && market.close.toNumber.gt market.open_.toNumber) ||
        (decide (direction = "DOWN") && market.close.toNumber.lt market.open_.toNumber)
    let statusBadge := if isCorrect then "Accurate" else "Missed"
    .ok
      { isCorrect := isCorrect
        statusBadge := statusBadge
        result := if market.close.truthy then statusBadge else "Pending Market Close" }

/-- One pass of the `forEach` of `renderArchiveCards(data, date, timeframe, grid)`: the
daily card for `timeframe === 'DAILY'`, the other card for every other timeframe. -/
def renderArchiveCards_item (timeframe direction : String) (predicted_move : JSVal)
    (market : Option MarketData) : Except JSError (DailyCard ⊕ OtherCard) :=
  if timeframe = "DAILY" then
    match renderArchiveCards_daily predicted_move market with
    | .ok card => .ok (.inl card)
    | .error e => .error e
  else
    match renderArchiveCards_other direction market with
    | .ok card => .ok (.inr card)
    | .error e => .error e

/-! ## `updateMarketStatus` -/

/-- The text and dot colour set by `updateMarketStatus`. -/
structure MarketStatus where
  marketState : String
  dotColor : String
  deriving DecidableEq

/-- The function `updateMarketStatus(dateStr)` of `script.js`, `hour` being the value of
`now.getHours()`; the argument `dateStr` is not read. -/
def updateMarketStatus (hour : ℕ) : MarketStatus :=
  if 9 ≤ hour ∧ hour < 16 then
    { marketState := "Market Open", dotColor := "var(--accent-green)" }
  else
    { marketState := "Market Closed", dotColor := "var(--text-secondary)" }

/-- The function `updateMarketStatus(dateStr)` of `script_backup.js`, `hour` and `minute`
being the values of `now.getHours()` and `now.getMinutes()`; `minute` is assigned and
not read again. -/
def updateMarketStatus_backup (hour minute : ℕ) : MarketStatus :=
  let _minute := minute
  if 9 ≤ hour ∧ hour < 16 then
    { marketState := "Market Open", dotColor := "var(--accent-green)" }
  else
    { marketState := "Market Closed", dotColor := "var(--text-secondary)" }

/-! ## The confidence bar of `renderDailyCards` and `renderWeeklyCards` -/

namespace JSVal

/-- The `v || d` of JavaScript for a value read from JSON and a number `d`. -/
def orNum (v : JSVal) (d : ℚ) : JSNum := if v.truthy then v.toNumber else .fin d

end JSVal

/-- The local variables of the confidence bar. -/
structure ConfidenceBar where
  confidence : JSNum
  confidencePercent : JSNum
  confidenceClass : String
  deriving DecidableEq

/-- The confidence bar computed by `renderDailyCards` (`daily_pro.js`) for a record whose
`prediction.confidence_score` is `confidence_score`. -/
def renderDailyCards_confidence (confidence_score : JSVal) : ConfidenceBar :=
  let confidence := confidence_score.orNum 5
  let confidencePercent := (confidence.div (.fin 10)).mul (.fin 100)
  let confidenceClass :=
    if confidence.ge (.fin 7) then "high" else if confidence.ge (.fin 5) then "medium" else "low"
  { confidence := confidence
    confidencePercent := confidencePercent
    confidenceClass := confidenceClass }

/-- The confidence bar computed by `renderWeeklyCards` (`weekly.js`) for a record whose
`prediction.confidence_score` is `confidence_score`. -/
def renderWeeklyCards_confidence (confidence_score : JSVal) : ConfidenceBar :=
  let confidence := confidence_score.orNum 5
  let confidencePercent := (confidence.div (.fin 10)).mul (.fin 100)
  let confidenceClass :=
    if confidence.ge (.fin 7) then "high" else if confidence.ge (.fin 5) then "medium" else "low"
  { confidence := confidence
    confidencePercent := confidencePercent
    confidenceClass := confidenceClass }

/-! ## The move expression as a parameter -/

/-- The expression `((close - open) / open) * 100` evaluated in exact arithmetic. -/
def exactMove (close open_ : JSNum) : JSNum :=
  ((close.sub open_).div open_).mul (.fin 100)

/-- The value of `performanceHtml` in one pass of the `forEach` of
`renderCards(companies, isHistory)`, the value JavaScript computes for
`((priceData.close - priceData.open) / priceData.open) * 100` being
`moveOf close open`. -/
def renderCards_performance_of (moveOf : JSNum → JSNum → JSNum) (isHistory : Bool)
    (pred : Option Prediction) (price : Option PriceData) : Option Performance :=
  let prediction := pred.getD { direction := "NEUTRAL" }
  let priceData := price.getD { close := .num 0, open_ := .num 0 }
  if (isHistory && priceData.open_.truthy) && priceData.close.truthy then
    let actualMovePercent := moveOf priceData.close.toNumber priceData.open_.toNumber
    let actualDirection :=
      if actualMovePercent.gt (.fin 0) then "UP"
      else if actualMovePercent.lt (.fin 0) then "DOWN" else "NEUTRAL"
    let predictionCorrect := false
    let predictionCorrect :=
      if prediction.direction = "UP" ∧ actualDirection = "UP" then true
      else predictionCorrect
    let predictionCorrect :=
      if prediction.direction = "DOWN" ∧ actualDirection = "DOWN" then true
      else predictionCorrect
    let predictionCorrect :=
      if prediction.direction = "NEUTRAL" ∧ actualMovePercent.abs.lt (.fin 0.2) = true then true
      else predictionCorrect
    some
      { actualMovePercent := actualMovePercent
        actualDirection := actualDirection
        predictionCorrect := predictionCorrect
        resultClass := if predictionCorrect then "text-green" else "text-red"
        moveClass := if actualMovePercent.ge (.fin 0) then "up-color" else "down-color"
        movePrefix := if actualMovePercent.gt (.fin 0) then "+" else ""
        moveText := toFixed2 actualMovePercent
        verdict := if predictionCorrect then "Correct" else "Missed" }
  else none

/-- The body of the `DAILY` branch of `renderArchiveCards`, `parseFloat(pred.predicted_move)`
being `parsed` and the value JavaScript computes for
`(market.close - market.open) / market.open * 100` being `moveOf close open`. -/
def renderArchiveCards_daily_of (moveOf : JSNum → JSNum → JSNum) (parsed : JSNum)
    (market : Option MarketData) : Except JSError DailyCard :=
  match market with
  | none => .error .typeError
  | some market =>
    let actualMove : Option NumStr :=
      if market.close.truthy && market.open_.truthy then
        some (toFixed2 (moveOf market.close.toNumber market.open_.toNumber))
      else none
    let predictedMove := parsed.orElse (.fin 0)
    let predictedDirection := if predictedMove.ge (.fin 0) then "UP" else "DOWN"
    let actualDirection := if (actualMoveToNumber actualMove).ge (.fin 0) then "UP" else "DOWN"
    let sentimentCorrect := decide (predictedDirection = actualDirection)
    let priceCorrect : Option Bool :=
      match actualMove with
      | some s => some (((predictedMove.sub s.toNumber).abs).le (.fin (1 / 2)))
      | none => none
    let sentimentBadge :=
      match actualMove with
      | none => Badge.pending
      | some _ => if sentimentCorrect then Badge.correct else Badge.incorrect
    let priceBadge :=
      match priceCorrect with
      | none => Badge.pending
      | some true => Badge.correct
      | some false => Badge.incorrect
    .ok
      { actualMove := actualMove
        predictedMove := predictedMove
        predictedDirection := predictedDirection
        actualDirection := actualDirection
        sentimentCorrect := sentimentCorrect
        priceCorrect := priceCorrect
        sentimentBadge := sentimentBadge
        priceBadge := priceBadge }

/-! ## Auxiliary facts -/

theorem Math_PI_pos : 0 < Math_PI := by
  norm_num [Math_PI]

theorem toFixed2_toNumber (x : ℚ) : (toFixed2 (.fin x)).toNumber = .fin (fixed2Value x) := by
  simp [toFixed2, NumStr.toNumber, fixed2Value]

theorem fixed2Mag_nonneg (x : ℚ) : 0 ≤ fixed2Mag x := by
  unfold fixed2Mag
  split_ifs with h
  · exact abs_nonneg x
  · apply div_nonneg _ (by norm_num)
    have h0 : (0 : ℚ) ≤ |x| * 100 + 1 / 2 := by positivity
    exact_mod_cast Int.floor_nonneg.mpr h0

/-- A value below `10^21` is printed to within half a hundredth. -/
theorem fixed2Value_near (x : ℚ) (hx : |x| < 10 ^ 21) : |fixed2Value x - x| ≤ 1 / 200 := by
  have hfl := Int.floor_le (|x| * 100 + 1 / 2)
  have hlt := Int.lt_floor_add_one (|x| * 100 + 1 / 2)
  have hm : fixed2Mag x = ((⌊|x| * 100 + 1 / 2⌋ : ℤ) : ℚ) / 100 := by
    unfold fixed2Mag
    rw [if_neg (not_le.mpr hx)]
  have hb : |fixed2Mag x - (|x|)| ≤ 1 / 200 := by
    rw [hm, abs_le]
    constructor <;> linarith
  unfold fixed2Value
  split_ifs with h
  · rw [abs_of_neg h] at hb
    rw [abs_le] at hb ⊢
    constructor <;> linarith [hb.1, hb.2]
  · rw [abs_of_nonneg (not_lt.mp h)] at hb
    exact hb

/-- The printed value is non-negative exactly for `x` above minus half a hundredth:
`-0.00` denotes zero. -/
theorem fixed2Value_nonneg_iff (x : ℚ) : 0 ≤ fixed2Value x ↔ -(1 / 200) < x := by
  unfold fixed2Value
  split_ifs with h
  · have hax : |x| = -x := abs_of_neg h
    unfold fixed2Mag
    split_ifs with hbig
    · rw [hax] at hbig ⊢
      constructor
      · intro h0
        have : (0 : ℚ) < 10 ^ 21 := by norm_num
        linarith
      · intro h1
        have : (1 : ℚ) < 10 ^ 21 := by norm_num
        linarith
    · have h0 : (0 : ℚ) ≤ |x| * 100 + 1 / 2 := by positivity
      have hfl0 : (0 : ℤ) ≤ ⌊|x| * 100 + 1 / 2⌋ := Int.floor_nonneg.mpr h0
      constructor
      · intro hle
        have hz : ((⌊|x| * 100 + 1 / 2⌋ : ℤ) : ℚ) ≤ 0 := by
          have := neg_nonneg.mp hle
          by_contra hcon
          push_neg at hcon
          have : (0 : ℚ) < ((⌊|x| * 100 + 1 / 2⌋ : ℤ) : ℚ) / 100 := by positivity
          linarith
        have hlt := Int.lt_floor_add_one (|x| * 100 + 1 / 2)
        rw [hax] at hlt hz
        linarith
      · intro hx
        have hlt1 : |x| * 100 + 1 / 2 < 1 := by rw [hax]; linarith
        have hfl : ⌊|x| * 100 + 1 / 2⌋ = 0 := by
          rw [Int.floor_eq_iff]
          constructor
          · simpa using h0
          · simpa using hlt1
        rw [hfl]
        simp
  · constructor
    · intro _
      linarith [not_lt.mp h]
    · intro _
      exact fixed2Mag_nonneg x

/-- The locals of the daily card on a record whose open and close are non-zero numbers. -/
theorem daily_complete (pm o c : ℚ) (prev : JSVal) (ho : o ≠ 0) (hc : c ≠ 0) :
    renderArchiveCards_daily (.num pm) (some ⟨.num o, .num c, prev⟩) = .ok
      { actualMove := some (toFixed2 (.fin ((c - o) / o * 100)))
        predictedMove := .fin pm
        predictedDirection := if 0 ≤ pm then "UP" else "DOWN"
        actualDirection := if 0 ≤ fixed2Value ((c - o) / o * 100) then "UP" else "DOWN"
        sentimentCorrect := decide (0 ≤ pm ↔ 0 ≤ fixed2Value ((c - o) / o * 100))
        priceCorrect := some (decide (|pm - fixed2Value ((c - o) / o * 100)| ≤ 1 / 2))
        sentimentBadge :=
          if (0 ≤ pm ↔ 0 ≤ fixed2Value ((c - o) / o * 100)) then .correct else .incorrect
        priceBadge :=
          if |pm - fixed2Value ((c - o) / o * 100)| ≤ 1 / 2 then .correct else .incorrect } := by
  have hpm : (JSVal.num pm).parseFloat.orElse (.fin 0) = .fin pm := by
    by_cases h : pm = 0 <;> simp [JSVal.parseFloat, JSNum.orElse, JSNum.truthy, h]
  simp only [renderArchiveCards_daily, hpm, JSVal.truthy, JSVal.toNumber, JSNum.sub, JSNum.div,
    JSNum.mul, ho, hc, ne_eq, not_false_eq_true, decide_True, Bool.and_self, if_true, if_false,
    actualMoveToNumber, toFixed2_toNumber, JSNum.ge, JSNum.le, JSNum.abs]
  rw [show (1 / 2 : ℚ) = 2⁻¹ by norm_num]
  by_cases h1 : 0 ≤ pm <;> by_cases h2 : 0 ≤ fixed2Value ((c - o) / o * 100) <;>
    by_cases h3 : |pm - fixed2Value ((c - o) / o * 100)| ≤ 2⁻¹ <;> simp [h1, h2, h3]

/-- The gauge geometry on finite inputs with a non-zero maximum. -/
theorem gauge_fin (score maxScore : ℚ) (hm : maxScore ≠ 0) :
    (createCircularGauge (.fin score) (.fin maxScore)).angle = .fin (score / maxScore * 270) ∧
    (createCircularGauge (.fin score) (.fin maxScore)).offset =
      .fin (2 * Math_PI * 45 - score / maxScore * 270 / 360 * (2 * Math_PI * 45)) := by
  simp only [createCircularGauge, JSNum.div, JSNum.mul, JSNum.sub, hm, if_false]
  norm_num

/-- The magnitude printed for `x` is `n / 100` when `|x| * 100` lies within a half of `n`. -/
theorem fixed2Mag_eq (x : ℚ) (n : ℤ) (hbig : |x| < 10 ^ 21) (h1 : (n : ℚ) ≤ |x| * 100 + 1 / 2)
    (h2 : |x| * 100 + 1 / 2 < (n : ℚ) + 1) : fixed2Mag x = (n : ℚ) / 100 := by
  unfold fixed2Mag
  rw [if_neg (not_le.mpr hbig)]
  have hfl : ⌊|x| * 100 + 1 / 2⌋ = n := Int.floor_eq_iff.mpr ⟨h1, h2⟩
  rw [hfl]

/-- Below `10^21` the printed value is a whole number of hundredths. -/
theorem fixed2Value_hundredths (x : ℚ) (hx : |x| < 10 ^ 21) :
    ∃ n : ℤ, fixed2Value x = (n : ℚ) / 100 := by
  have hm : fixed2Mag x = ((⌊|x| * 100 + 1 / 2⌋ : ℤ) : ℚ) / 100 := by
    unfold fixed2Mag
    rw [if_neg (not_le.mpr hx)]
  unfold fixed2Value
  split_ifs with h
  · refine ⟨-⌊|x| * 100 + 1 / 2⌋, ?_⟩
    rw [hm]
    push_cast
    ring
  · exact ⟨⌊|x| * 100 + 1 / 2⌋, hm⟩

/-- The rating of a finite score, as a chain of comparisons of rationals. -/
theorem gaugeColorRating_fin (s : ℚ) :
    gaugeColorRating (.fin s) =
      if 9 ≤ s then ("#22c55e", "Strong Buy")
      else if 7 ≤ s then ("#a3e635", "Buy")
      else if 5 ≤ s then ("#fbbf24", "Hold")
      else if 3 ≤ s then ("#fb923c", "Sell")
      else ("#ef4444", "Strong Sell") := by
  simp [gaugeColorRating, JSNum.ge, JSNum.le]

/-- The label of a finite score, as a chain of comparisons of rationals. -/
theorem getRatingFromScore_fin (s : ℚ) :
    (getRatingFromScore (.fin s)).label =
      if 9 ≤ s then "Strong Buy"
      else if 7 ≤ s then "Buy"
      else if 5 ≤ s then "Hold"
      else if 3 ≤ s then "Sell"
      else "Strong Sell" := by
  simp only [getRatingFromScore, JSNum.ge, JSNum.le, decide_eq_true_eq]
  split_ifs <;> rfl

/-- The rank of the rating of a finite score. -/
theorem tierRank_rating (s : ℚ) :
    tierRank (gaugeColorRating (.fin s)).2 =
      some (if 9 ≤ s then 4 else if 7 ≤ s then 3 else if 5 ≤ s then 2 else if 3 ≤ s then 1
        else 0) := by
  rw [gaugeColorRating_fin]
  split_ifs <;> simp [tierRank]

/-- The gauge geometry on a finite score with `maxScore` 0: the division by zero gives an
infinity or `NaN`, which reaches the sweep angle and the dashoffset. -/
theorem gauge_zero_max (score : ℚ) :
    (createCircularGauge (.fin score) (.fin 0)).angle =
      (if score = 0 then .nan else if 0 < score then .posInf else .negInf) ∧
    (createCircularGauge (.fin score) (.fin 0)).offset =
      (if score = 0 then .nan else if 0 < score then .negInf else .posInf) := by
  have hC : (0 : ℚ) < 2 * Math_PI * 45 := by
    have := Math_PI_pos
    positivity
  have hpi : Math_PI ≠ 0 := Math_PI_pos.ne'
  by_cases h0 : score = 0
  · subst h0
    simp [createCircularGauge, JSNum.div, JSNum.mul, JSNum.sub]
  · by_cases hp : 0 < score
    · simp [createCircularGauge, JSNum.div, JSNum.mul, JSNum.sub, h0, hp, hC, hpi,
        Math_PI_pos]
    · simp [createCircularGauge, JSNum.div, JSNum.mul, JSNum.sub, h0, hp, hC, hpi,
        Math_PI_pos]

/-- The printed value is negative exactly for `x` at most minus half a hundredth. -/
theorem fixed2Value_neg_iff (x : ℚ) : fixed2Value x < 0 ↔ x ≤ -(1 / 200) := by
  rw [← not_le, fixed2Value_nonneg_iff, not_lt]

/-- The printed value is positive exactly for `x` at least half a hundredth. -/
theorem fixed2Value_pos_iff (x : ℚ) : 0 < fixed2Value x ↔ 1 / 200 ≤ x := by
  unfold fixed2Value
  split_ifs with h
  · have := fixed2Mag_nonneg x
    constructor <;> intro _ <;> linarith
  · have hx : |x| = x := abs_of_nonneg (not_lt.mp h)
    unfold fixed2Mag
    rw [hx]
    split_ifs with hbig
    · have : (1 : ℚ) < 10 ^ 21 := by norm_num
      constructor <;> intro _ <;> linarith
    · have e : (0 : ℚ) < ((⌊x * 100 + 1 / 2⌋ : ℤ) : ℚ) / 100 ↔ 0 < ⌊x * 100 + 1 / 2⌋ := by
        rw [div_pos_iff_of_pos_right (by norm_num)]
        exact Int.cast_pos
      rw [e, Int.floor_pos]
      constructor <;> intro _ <;> linarith

/-- The performance block of `renderCards` in the history view on a record whose open and
close are non-zero numbers. -/
theorem renderCards_complete (pred : Option Prediction) (o c : ℚ) (ho : o ≠ 0) (hc : c ≠ 0) :
    ∃ perf, renderCards_performance true pred (some ⟨.num c, .num o⟩) = some perf ∧
      perf.actualMovePercent = .fin ((c - o) / o * 100) ∧
      (perf.predictionCorrect = true ↔
        ((pred.getD ⟨"NEUTRAL"⟩).direction = "UP" ∧ 0 < (c - o) / o * 100) ∨
          ((pred.getD ⟨"NEUTRAL"⟩).direction = "DOWN" ∧ (c - o) / o * 100 < 0) ∨
          ((pred.getD ⟨"NEUTRAL"⟩).direction = "NEUTRAL" ∧ |(c - o) / o * 100| < 2 / 10)) ∧
      perf.verdict = (if perf.predictionCorrect then "Correct" else "Missed") := by
  have hcond : ((true && (JSVal.num o).truthy) && (JSVal.num c).truthy) = true := by
    simp [JSVal.truthy, ho, hc]
  refine ⟨_, if_pos hcond, ?_, ?_, rfl⟩
  · simp [JSVal.toNumber, JSNum.sub, JSNum.div, JSNum.mul, ho]
  · simp only [Option.getD_some, JSVal.toNumber, JSNum.sub, JSNum.div, JSNum.mul, ho, if_false,
      JSNum.gt, JSNum.lt, JSNum.abs, decide_eq_true_eq]
    generalize (c - o) / o * 100 = a
    generalize (pred.getD ⟨"NEUTRAL"⟩).direction = d
    rw [show (0.2 : ℚ) = 2 / 10 by norm_num]
    have hup : (if 0 < a then "UP" else if a < 0 then "DOWN" else "NEUTRAL") = "UP" ↔ 0 < a := by
      split_ifs with h1 h2 <;> simp [h1]
    have hdown :
        (if 0 < a then "UP" else if a < 0 then "DOWN" else "NEUTRAL") = "DOWN" ↔ a < 0 := by
      split_ifs with h1 h2
      · simp; linarith
      · simp [h2]
      · simp [h2]
    simp only [hup, hdown]
    by_cases h1 : d = "NEUTRAL" ∧ |a| < 2 / 10 <;> by_cases h2 : d = "DOWN" ∧ a < 0 <;>
      by_cases h3 : d = "UP" ∧ 0 < a <;> simp only [h1, h2, h3, if_true, if_false, or_true,
        true_or, or_false, false_or, or_self] <;> simp

/-- The performance block of `renderCards_fixed` in the history view on a record that
carries `company` and `price` and whose `actual_open` and `actual_close` are non-zero
numbers, in exact arithmetic. -/
theorem renderCards_fixed_complete (d : String) (o c : ℚ) (comp : Company) (pr : PriceData)
    (fund : Option JSVal) (ho : o ≠ 0) (hc : c ≠ 0) :
    ∃ perf, renderCards_fixed_performance "history"
        ⟨some comp, some ⟨d, .num o, .num c⟩, some pr, fund⟩ = .ok (some perf) ∧
      perf.actual_move = toFixed2 (.fin ((c - o) / o * 100)) ∧
      (perf.isCorrect = true ↔
        (d = "UP" ∧ 0 < fixed2Value ((c - o) / o * 100)) ∨
          (d = "DOWN" ∧ fixed2Value ((c - o) / o * 100) < 0)) ∧
      perf.verdict = (if perf.isCorrect then "CORRECT" else "INCORRECT") := by
  have hh : decide ("history" = "history") = true := by decide
  have ht : ((true && (JSVal.num o).truthy) && (JSVal.num c).truthy) = true := by
    simp [JSVal.truthy, ho, hc]
  simp only [renderCards_fixed_performance, hh, decide_True, ht, if_true, Bool.not_true,
    Bool.false_and, Bool.false_eq_true, if_false]
  refine ⟨_, rfl, ?_, ?_, rfl⟩
  · simp [JSVal.toNumber, JSNum.sub, JSNum.div, JSNum.mul, ho]
  · simp only [JSVal.toNumber, JSNum.sub, JSNum.div, JSNum.mul, ho, if_false,
      toFixed2_toNumber, JSNum.gt, JSNum.lt, Bool.or_eq_true, Bool.and_eq_true,
      decide_eq_true_eq]

/-- The performance block of `renderCards` is produced exactly in the history view on a
record whose open and close are non-zero numbers. -/
theorem renderCards_isSome_iff (isHistory : Bool) (pred : Option Prediction)
    (price : Option PriceData) :
    (renderCards_performance isHistory pred price).isSome = true ↔
      isHistory = true ∧ ∃ o c : ℚ, price = some ⟨.num c, .num o⟩ ∧ o ≠ 0 ∧ c ≠ 0 := by
  rcases price with _ | ⟨c, o⟩
  · simp [renderCards_performance, JSVal.truthy]
  · cases isHistory <;> cases c <;> cases o <;>
      simp [renderCards_performance, JSVal.truthy]
    constructor
    · rintro ⟨h1, h2⟩
      exact ⟨_, _, ⟨rfl, rfl⟩, h1, h2⟩
    · rintro ⟨o, c, ⟨rfl, rfl⟩, h1, h2⟩
      exact ⟨h1, h2⟩

/-- The daily card depends on `predicted_move` through `parseFloat` alone. -/
theorem renderArchiveCards_daily_eq_from (pm : JSVal) (market : Option MarketData) :
    renderArchiveCards_daily pm market = renderArchiveCards_daily_from pm.parseFloat market := by
  cases market <;> rfl

/-- The daily card of the exact model is the parameterised one at `exactMove`. -/
theorem renderArchiveCards_daily_from_eq_of (parsed : JSNum) (market : Option MarketData) :
    renderArchiveCards_daily_from parsed market =
      renderArchiveCards_daily_of exactMove parsed market := by
  cases market <;> rfl

/-- The performance block of the exact model is the parameterised one at `exactMove`. -/
theorem renderCards_performance_eq_of (isHistory : Bool) (pred : Option Prediction)
    (price : Option PriceData) :
    renderCards_performance isHistory pred price =
      renderCards_performance_of exactMove isHistory pred price := rfl

/-- The expression of the move in exact arithmetic, for a non-zero open. -/
theorem exactMove_fin (c o : ℚ) (ho : o ≠ 0) :
    exactMove (.fin c) (.fin o) = .fin ((c - o) / o * 100) := by
  simp [exactMove, JSNum.sub, JSNum.div, JSNum.mul, ho]

/-- No number is both above and below 0. -/
theorem JSNum.not_gt_and_lt (v : JSNum) (h1 : v.gt (.fin 0) = true)
    (h2 : v.lt (.fin 0) = true) : False := by
  cases v <;> simp [JSNum.gt, JSNum.lt] at h1 h2
  linarith

/-- The locals of the daily card when the prediction parses to `NaN` or to 0, on a record
whose open and close are non-zero numbers, whatever the evaluation of the move. -/
theorem daily_of_complete (moveOf : JSNum → JSNum → JSNum) (parsed : JSNum) (o c : ℚ)
    (prev : JSVal) (hp : parsed = .nan ∨ parsed = .fin 0) (ho : o ≠ 0) (hc : c ≠ 0) :
    renderArchiveCards_daily_of moveOf parsed (some ⟨.num o, .num c, prev⟩) = .ok
      { actualMove := some (toFixed2 (moveOf (.fin c) (.fin o)))
        predictedMove := .fin 0
        predictedDirection := "UP"
        actualDirection :=
          if (toFixed2 (moveOf (.fin c) (.fin o))).toNumber.ge (.fin 0) then "UP" else "DOWN"
        sentimentCorrect := (toFixed2 (moveOf (.fin c) (.fin o))).toNumber.ge (.fin 0)
        priceCorrect :=
          some ((((JSNum.fin 0).sub (toFixed2 (moveOf (.fin c) (.fin o))).toNumber).abs).le
            (.fin (1 / 2)))
        sentimentBadge :=
          if (toFixed2 (moveOf (.fin c) (.fin o))).toNumber.ge (.fin 0) then .correct
          else .incorrect
        priceBadge :=
          if (((JSNum.fin 0).sub (toFixed2 (moveOf (.fin c) (.fin o))).toNumber).abs).le
            (.fin (1 / 2)) then .correct else .incorrect } := by
  have hpm : parsed.orElse (.fin 0) = .fin 0 := by
    rcases hp with h | h <;> simp [h, JSNum.orElse, JSNum.truthy]
  have h00 : (JSNum.fin 0).ge (.fin 0) = true := by simp [JSNum.ge, JSNum.le]
  simp only [renderArchiveCards_daily_of, hpm, JSVal.truthy, JSVal.toNumber, ho, hc, ne_eq,
    not_false_eq_true, decide_True, Bool.and_self, if_true, actualMoveToNumber, h00]
  generalize (toFixed2 (moveOf (.fin c) (.fin o))).toNumber = r
  cases h1 : r.ge (.fin 0) <;>
    cases h2 : (((JSNum.fin 0).sub r).abs).le (.fin (1 / 2)) <;> simp [h1, h2]

/-- The performance block of `renderCards` in the history view on a record whose open and
close are non-zero numbers, whatever the evaluation of the move. -/
theorem renderCards_of_complete (moveOf : JSNum → JSNum → JSNum) (pred : Option Prediction)
    (o c : ℚ) (ho : o ≠ 0) (hc : c ≠ 0) :
    ∃ perf, renderCards_performance_of moveOf true pred (some ⟨.num c, .num o⟩) = some perf ∧
      perf.actualMovePercent = moveOf (.fin c) (.fin o) ∧
      (perf.predictionCorrect = true ↔
        ((pred.getD ⟨"NEUTRAL"⟩).direction = "UP" ∧
            (moveOf (.fin c) (.fin o)).gt (.fin 0) = true) ∨
          ((pred.getD ⟨"NEUTRAL"⟩).direction = "DOWN" ∧
            (moveOf (.fin c) (.fin o)).lt (.fin 0) = true) ∨
          ((pred.getD ⟨"NEUTRAL"⟩).direction = "NEUTRAL" ∧
            (moveOf (.fin c) (.fin o)).abs.lt (.fin 0.2) = true)) ∧
      perf.verdict = (if perf.predictionCorrect then "Correct" else "Missed") := by
  have hcond : ((true && (JSVal.num o).truthy) && (JSVal.num c).truthy) = true := by
    simp [JSVal.truthy, ho, hc]
  have key : ∀ (v : JSNum) (d : String),
      (if d = "NEUTRAL" ∧ v.abs.lt (.fin 0.2) = true then true
        else if d = "DOWN" ∧
            (if v.gt (.fin 0) = true then "UP"
              else if v.lt (.fin 0) = true then "DOWN" else "NEUTRAL") = "DOWN" then true
        else if d = "UP" ∧
            (if v.gt (.fin 0) = true then "UP"
              else if v.lt (.fin 0) = true then "DOWN" else "NEUTRAL") = "UP" then true
        else false) = true ↔
      (d = "UP" ∧ v.gt (.fin 0) = true) ∨ (d = "DOWN" ∧ v.lt (.fin 0) = true) ∨
        (d = "NEUTRAL" ∧ v.abs.lt (.fin 0.2) = true) := by
    intro v d
    have hup : (if v.gt (.fin 0) = true then "UP"
        else if v.lt (.fin 0) = true then "DOWN" else "NEUTRAL") = "UP" ↔
        v.gt (.fin 0) = true := by
      split_ifs with h1 h2 <;> simp [h1]
    have hdown : (if v.gt (.fin 0) = true then "UP"
        else if v.lt (.fin 0) = true then "DOWN" else "NEUTRAL") = "DOWN" ↔
        v.lt (.fin 0) = true := by
      split_ifs with h1 h2
      · simp
        cases h2 : v.lt (.fin 0)
        · rfl
        · exact (JSNum.not_gt_and_lt v h1 h2).elim
      · simp [h2]
      · simp [h2]
    simp only [hup, hdown]
    by_cases h1 : d = "NEUTRAL" ∧ v.abs.lt (.fin 0.2) = true <;>
      by_cases h2 : d = "DOWN" ∧ v.lt (.fin 0) = true <;>
      by_cases h3 : d = "UP" ∧ v.gt (.fin 0) = true <;>
      simp only [h1, h2, h3, if_true, if_false, or_true, true_or, or_false, false_or,
        or_self] <;> simp
  refine ⟨_, if_pos hcond, rfl, ?_, rfl⟩
  exact key (moveOf (.fin c) (.fin o)) ((pred.getD ⟨"NEUTRAL"⟩).direction)

/-- The card of the branch for timeframes other than `DAILY` on a present `market_data`. -/
theorem renderArchiveCards_other_spec (d : String) (m : MarketData) :
    ∃ card, renderArchiveCards_other d (some m) = .ok card ∧
      (card.isCorrect = true ↔
        (d = "UP" ∧ m.close.toNumber.gt m.open_.toNumber = true) ∨
          (d = "DOWN" ∧ m.close.toNumber.lt m.open_.toNumber = true)) ∧
      card.statusBadge = (if card.isCorrect then "Accurate" else "Missed") ∧
      card.result = (if m.close.truthy then card.statusBadge else "Pending Market Close") := by
  refine ⟨_, rfl, ?_, rfl, rfl⟩
  simp

/-- For a timeframe other than `DAILY` the card is that of the other branch. -/
theorem renderArchiveCards_item_other (tf d : String) (pm : JSVal) (m : Option MarketData)
    (card : OtherCard) (htf : tf ≠ "DAILY") (h : renderArchiveCards_other d m = .ok card) :
    renderArchiveCards_item tf d pm m = .ok (.inr card) := by
  simp [renderArchiveCards_item, htf, h]

/-! ## Rating thresholds -/

/-- C1: for every finite score the rating chosen by `createCircularGauge` and the label
returned by `getRatingFromScore` are Strong Buy iff `score >= 9`, Buy iff `7 <= score < 9`,
Hold iff `5 <= score < 7`, Sell iff `3 <= score < 5` and Strong Sell iff `score < 3`;
score 9 gives Strong Buy and score 8.999 gives Buy. -/
theorem rating_thresholds (score : ℚ) (maxScore : JSNum) :
    (((createCircularGauge (.fin score) maxScore).rating = "Strong Buy" ↔ 9 ≤ score) ∧
      ((createCircularGauge (.fin score) maxScore).rating = "Buy" ↔ 7 ≤ score ∧ score < 9) ∧
      ((createCircularGauge (.fin score) maxScore).rating = "Hold" ↔ 5 ≤ score ∧ score < 7) ∧
      ((createCircularGauge (.fin score) maxScore).rating = "Sell" ↔ 3 ≤ score ∧ score < 5) ∧
      ((createCircularGauge (.fin score) maxScore).rating = "Strong Sell" ↔ score < 3)) ∧
    (((getRatingFromScore (.fin score)).label = "Strong Buy" ↔ 9 ≤ score) ∧
      ((getRatingFromScore (.fin score)).label = "Buy" ↔ 7 ≤ score ∧ score < 9) ∧
      ((getRatingFromScore (.fin score)).label = "Hold" ↔ 5 ≤ score ∧ score < 7) ∧
      ((getRatingFromScore (.fin score)).label = "Sell" ↔ 3 ≤ score ∧ score < 5) ∧
      ((getRatingFromScore (.fin score)).label = "Strong Sell" ↔ score < 3)) ∧
    (createCircularGauge (.fin 9) maxScore).rating = "Strong Buy" ∧
    (getRatingFromScore (.fin 9)).label = "Strong Buy" ∧
    (createCircularGauge (.fin (8999 / 1000)) maxScore).rating = "Buy" ∧
    (getRatingFromScore (.fin (8999 / 1000))).label = "Buy" := by
  have key : ∀ s : ℚ,
      (gaugeColorRating (.fin s)).2 = (getRatingFromScore (.fin s)).label ∧
      (((getRatingFromScore (.fin s)).label = "Strong Buy" ↔ 9 ≤ s) ∧
        ((getRatingFromScore (.fin s)).label = "Buy" ↔ 7 ≤ s ∧ s < 9) ∧
        ((getRatingFromScore (.fin s)).label = "Hold" ↔ 5 ≤ s ∧ s < 7) ∧
        ((getRatingFromScore (.fin s)).label = "Sell" ↔ 3 ≤ s ∧ s < 5) ∧
        ((getRatingFromScore (.fin s)).label = "Strong Sell" ↔ s < 3)) := by
    intro s
    simp only [gaugeColorRating, getRatingFromScore, JSNum.ge, JSNum.le, decide_eq_true_eq]
    by_cases h9 : (9 : ℚ) ≤ s
    · have h7 : (7 : ℚ) ≤ s := by linarith
      have h5 : (5 : ℚ) ≤ s := by linarith
      have h3 : (3 : ℚ) ≤ s := by linarith
      simp [h9, h7, h5, h3]
    · by_cases h7 : (7 : ℚ) ≤ s
      · have h5 : (5 : ℚ) ≤ s := by linarith
        have h3 : (3 : ℚ) ≤ s := by linarith
        simp [h9, h7, h5, h3]
        linarith
      · by_cases h5 : (5 : ℚ) ≤ s
        · have h3 : (3 : ℚ) ≤ s := by linarith
          simp [h9, h7, h5, h3]
          linarith
        · by_cases h3 : (3 : ℚ) ≤ s
          · simp [h9, h7, h5, h3]
            linarith
          · simp [h9, h7, h5, h3]
            linarith
  have hr : ∀ s : ℚ, (createCircularGauge (.fin s) maxScore).rating =
      (getRatingFromScore (.fin s)).label := fun s => (key s).1
  refine ⟨?_, (key score).2, ?_, ?_, ?_, ?_⟩
  · rw [hr]; exact (key score).2
  · rw [hr]; exact ((key 9).2.1).2 (by norm_num)
  · exact ((key 9).2.1).2 (by norm_num)
  · rw [hr]; exact ((key (8999 / 1000)).2.2.1).2 (by norm_num)
  · exact ((key (8999 / 1000)).2.2.1).2 (by norm_num)

/-! ## Daily archive card -/

/-- C2, the code at predicted move 0, open 100000, close 100504: the actual move is
0.504, more than 0.5 away from the prediction, yet the card marks the price correct,
since it compares with the printed `0.50`. -/
theorem daily_price_outside_tolerance :
    ∃ card, renderArchiveCards_daily (.num 0) (some ⟨.num 100000, .num 100504, .undefined⟩) =
        .ok card ∧
      card.actualMove = some (.dec false (50 / 100)) ∧
      card.priceCorrect = some true ∧ card.priceBadge = .correct ∧
      ¬ |(0 : ℚ) - (100504 - 100000) / 100000 * 100| ≤ 1 / 2 := by
  have hm : fixed2Mag ((100504 - 100000) / 100000 * 100) = ((50 : ℤ) : ℚ) / 100 := by
    apply fixed2Mag_eq <;> norm_num [abs_of_nonneg]
  have hv : fixed2Value ((100504 - 100000) / 100000 * 100) = 50 / 100 := by
    unfold fixed2Value
    rw [hm]
    norm_num
  refine ⟨_, daily_complete 0 100000 100504 .undefined (by norm_num) (by norm_num), ?_, ?_, ?_, ?_⟩
  · simp only [toFixed2, hm]
    norm_num
  · rw [hv]
    norm_num [abs_of_nonneg]
  · rw [hv]
    norm_num [abs_of_nonneg]
  · norm_num [abs_of_nonneg]

/-- C3, the code at predicted move +1, open 100000, close 99999: the actual move is
-0.001, a move DOWN, yet the card takes the actual direction as UP and marks the
sentiment correct, since the printed `-0.00` compares as `>= 0`. -/
theorem daily_sentiment_minus_zero :
    ∃ card, renderArchiveCards_daily (.num 1) (some ⟨.num 100000, .num 99999, .undefined⟩) =
        .ok card ∧
      card.actualMove = some (.dec true 0) ∧
      card.predictedDirection = "UP" ∧
      card.actualDirection = "UP" ∧
      card.sentimentCorrect = true ∧ card.sentimentBadge = .correct ∧
      ((99999 : ℚ) - 100000) / 100000 * 100 < 0 := by
  have hm : fixed2Mag ((99999 - 100000) / 100000 * 100) = ((0 : ℤ) : ℚ) / 100 := by
    apply fixed2Mag_eq <;> norm_num [abs_of_neg]
  have hv : fixed2Value ((99999 - 100000) / 100000 * 100) = 0 := by
    unfold fixed2Value
    rw [hm]
    norm_num
  refine ⟨_, daily_complete 1 100000 99999 .undefined (by norm_num) (by norm_num),
    ?_, ?_, ?_, ?_, ?_, ?_⟩
  · simp only [toFixed2, hm]
    norm_num
  · norm_num
  · rw [hv]
    simp
  · rw [hv]
    simp
  · rw [hv]
    simp
  · norm_num

/-- C4: for every predicted move, when the market outcome lacks open or close (the
property is absent or `null`) or has open = 0, the daily card computes no actual move
and reports both the sentiment result and the price result as pending. -/
theorem daily_pending_of_incomplete (pm : JSVal) (m : MarketData)
    (h : m.open_ = .undefined ∨ m.open_ = .null ∨ m.close = .undefined ∨ m.close = .null ∨
      m.open_ = .num 0) :
    ∃ card, renderArchiveCards_daily pm (some m) = .ok card ∧
      card.actualMove = none ∧ card.priceCorrect = none ∧
      card.sentimentBadge = .pending ∧ card.priceBadge = .pending := by
  have hcond : (m.close.truthy && m.open_.truthy) = false := by
    rcases h with h | h | h | h | h <;> simp [h, JSVal.truthy]
  refine ⟨_, rfl, ?_, ?_, ?_, ?_⟩ <;> simp [hcond]

/-- Witness of `daily_pending_of_incomplete` at the outcome `{open: 0, close: 5}`. -/
theorem daily_pending_of_incomplete_witness :
    ∃ card, renderArchiveCards_daily (.num 2) (some ⟨.num 0, .num 5, .undefined⟩) = .ok card ∧
      card.actualMove = none ∧ card.priceCorrect = none ∧
      card.sentimentBadge = .pending ∧ card.priceBadge = .pending :=
  daily_pending_of_incomplete (.num 2) ⟨.num 0, .num 5, .undefined⟩
    (Or.inr (Or.inr (Or.inr (Or.inr rfl))))

/-- C5, counterexample: open 100 and close 0 are both present numbers and open is not 0,
yet the card computes no actual move and reports both results as pending. -/
theorem daily_close_zero_pending :
    ∃ card, renderArchiveCards_daily (.num (-100)) (some ⟨.num 100, .num 0, .undefined⟩) =
        .ok card ∧
      card.actualMove = none ∧ card.sentimentBadge = .pending ∧ card.priceBadge = .pending := by
  refine ⟨_, rfl, ?_, ?_, ?_⟩ <;> simp [JSVal.truthy]

/-- C5, amended: for every outcome in which open and close are both present numbers
and both different from 0, neither the sentiment result nor the price result of the
daily card is pending. -/
theorem daily_not_pending (pm : JSVal) (o c : ℚ) (prev : JSVal) (ho : o ≠ 0) (hc : c ≠ 0) :
    ∃ card, renderArchiveCards_daily pm (some ⟨.num o, .num c, prev⟩) = .ok card ∧
      card.actualMove ≠ none ∧ card.priceCorrect ≠ none ∧
      card.sentimentBadge ≠ .pending ∧ card.priceBadge ≠ .pending := by
  have hcond : ((JSVal.num c).truthy && (JSVal.num o).truthy) = true := by
    simp [JSVal.truthy, ho, hc]
  refine ⟨_, rfl, ?_, ?_, ?_, ?_⟩
  · simp [hcond]
  · simp [hcond]
  · simp only [hcond, if_true]
    split_ifs <;> simp
  · simp only [hcond, if_true]
    split <;> simp_all

/-- Witness of `daily_not_pending` at predicted move 2, open 100, close 102. -/
theorem daily_not_pending_witness :
    ∃ card, renderArchiveCards_daily (.num 2) (some ⟨.num 100, .num 102, .null⟩) = .ok card ∧
      card.actualMove ≠ none ∧ card.priceCorrect ≠ none ∧
      card.sentimentBadge ≠ .pending ∧ card.priceBadge ≠ .pending :=
  daily_not_pending (.num 2) 100 102 .null (by norm_num) (by norm_num)

/-- C6, counterexample: on a record whose `market_data` is `null` the daily branch
throws a `TypeError`, which differs from the all-pending card of `{open: 0, close: 5}`. -/
theorem daily_null_market_throws :
    renderArchiveCards_daily (.num 2) none = .error .typeError ∧
    renderArchiveCards_daily (.num 2) none ≠
      renderArchiveCards_daily (.num 2) (some ⟨.num 0, .num 5, .undefined⟩) := by
  constructor
  · rfl
  · simp [renderArchiveCards_daily]

/-- C6, amended: for every predicted move, a record whose `market_data` is `null` makes
the daily branch throw a `TypeError` (no card is produced), while the outcome
`{open: 0, close: 5}` yields a card with both results pending. -/
theorem daily_null_market (pm : JSVal) (prev : JSVal) :
    renderArchiveCards_daily pm none = .error .typeError ∧
    ∃ card, renderArchiveCards_daily pm (some ⟨.num 0, .num 5, prev⟩) = .ok card ∧
      card.actualMove = none ∧ card.priceCorrect = none ∧
      card.sentimentBadge = .pending ∧ card.priceBadge = .pending := by
  refine ⟨rfl, _, rfl, ?_, ?_, ?_, ?_⟩ <;> simp [JSVal.truthy]

/-- C7: for predicted move 2.0 and open 100, close 102 gives the actual move `2.00` with
sentiment correct and price correct; close 90 gives the actual move `-10.00` with
sentiment incorrect and price incorrect. -/
theorem daily_examples :
    (∃ card, renderArchiveCards_daily (.num 2) (some ⟨.num 100, .num 102, .undefined⟩) =
        .ok card ∧
      card.actualMove = some (.dec false (200 / 100)) ∧
      card.sentimentCorrect = true ∧ card.priceCorrect = some true ∧
      card.sentimentBadge = .correct ∧ card.priceBadge = .correct) ∧
    (∃ card, renderArchiveCards_daily (.num 2) (some ⟨.num 100, .num 90, .undefined⟩) =
        .ok card ∧
      card.actualMove = some (.dec true (1000 / 100)) ∧
      card.sentimentCorrect = false ∧ card.priceCorrect = some false ∧
      card.sentimentBadge = .incorrect ∧ card.priceBadge = .incorrect) := by
  have hm1 : fixed2Mag ((102 - 100) / 100 * 100) = ((200 : ℤ) : ℚ) / 100 := by
    apply fixed2Mag_eq <;> norm_num [abs_of_nonneg]
  have hv1 : fixed2Value ((102 - 100) / 100 * 100) = 2 := by
    unfold fixed2Value
    rw [hm1]
    norm_num
  have hm2 : fixed2Mag ((90 - 100) / 100 * 100) = ((1000 : ℤ) : ℚ) / 100 := by
    apply fixed2Mag_eq <;> norm_num [abs_of_neg]
  have hv2 : fixed2Value ((90 - 100) / 100 * 100) = -10 := by
    unfold fixed2Value
    rw [hm2]
    norm_num
  constructor
  · refine ⟨_, daily_complete 2 100 102 .undefined (by norm_num) (by norm_num),
      ?_, ?_, ?_, ?_, ?_⟩
    · simp only [toFixed2, hm1]
      norm_num
    all_goals rw [hv1]; norm_num
  · refine ⟨_, daily_complete 2 100 90 .undefined (by norm_num) (by norm_num),
      ?_, ?_, ?_, ?_, ?_⟩
    · simp only [toFixed2, hm2]
      norm_num
    all_goals rw [hv2]; norm_num [abs_of_nonneg]

/-- C8: a predicted move of exactly 0 is classified as direction UP, and on every
outcome it has the same sentiment verdict as any positive predicted move. -/
theorem daily_zero_counts_up (m : MarketData) (p : ℚ) (hp : 0 < p) :
    ∃ c0 cp, renderArchiveCards_daily (.num 0) (some m) = .ok c0 ∧
      renderArchiveCards_daily (.num p) (some m) = .ok cp ∧
      c0.predictedDirection = "UP" ∧ cp.predictedDirection = "UP" ∧
      c0.sentimentCorrect = cp.sentimentCorrect ∧
      c0.sentimentBadge = cp.sentimentBadge := by
  have h0 : ((JSVal.num 0).parseFloat.orElse (.fin 0)).ge (.fin 0) = true := by
    simp [JSVal.parseFloat, JSNum.orElse, JSNum.truthy, JSNum.ge, JSNum.le]
  have h1 : ((JSVal.num p).parseFloat.orElse (.fin 0)).ge (.fin 0) = true := by
    simp [JSVal.parseFloat, JSNum.orElse, JSNum.truthy, JSNum.ge, JSNum.le, hp.ne', hp.le]
  refine ⟨_, _, rfl, rfl, ?_, ?_, ?_, ?_⟩ <;> simp only [h0, h1, if_true]

/-- Witness of `daily_zero_counts_up` at open 100, close 90 and the positive move 3. -/
theorem daily_zero_counts_up_witness :
    ∃ c0 cp, renderArchiveCards_daily (.num 0) (some ⟨.num 100, .num 90, .null⟩) = .ok c0 ∧
      renderArchiveCards_daily (.num 3) (some ⟨.num 100, .num 90, .null⟩) = .ok cp ∧
      c0.predictedDirection = "UP" ∧ cp.predictedDirection = "UP" ∧
      c0.sentimentCorrect = cp.sentimentCorrect ∧
      c0.sentimentBadge = cp.sentimentBadge :=
  daily_zero_counts_up ⟨.num 100, .num 90, .null⟩ 3 (by norm_num)

/-! ## Gauge geometry -/

/-- C9: for every finite score and every finite `maxScore` other than 0, the sweep
angle is `(score / maxScore) * 270`, the stroke-dashoffset is `C - (angle / 360) * C`
with `C = 2 * Math.PI * 45`, which equals `C * (1 - 0.75 * score / maxScore)`, and the
stroke-dasharray is `C`. -/
theorem gauge_geometry (score maxScore : ℚ) (hm : maxScore ≠ 0) :
    (createCircularGauge (.fin score) (.fin maxScore)).angle =
      .fin (score / maxScore * 270) ∧
    (createCircularGauge (.fin score) (.fin maxScore)).offset =
      .fin (2 * Math_PI * 45 - score / maxScore * 270 / 360 * (2 * Math_PI * 45)) ∧
    (createCircularGauge (.fin score) (.fin maxScore)).offset =
      .fin (2 * Math_PI * 45 * (1 - 0.75 * score / maxScore)) ∧
    (createCircularGauge (.fin score) (.fin maxScore)).html.strokeDashoffset =
      (createCircularGauge (.fin score) (.fin maxScore)).offset ∧
    (createCircularGauge (.fin score) (.fin maxScore)).circumference =
      .fin (2 * Math_PI * 45) ∧
    (createCircularGauge (.fin score) (.fin maxScore)).html.strokeDasharray =
      .fin (2 * Math_PI * 45) := by
  refine ⟨(gauge_fin score maxScore hm).1, (gauge_fin score maxScore hm).2, ?_, rfl, rfl, rfl⟩
  rw [(gauge_fin score maxScore hm).2]
  congr 1
  field_simp
  ring

/-- Witness of `gauge_geometry` at score 5 and `maxScore` 10. -/
theorem gauge_geometry_witness :
    (createCircularGauge (.fin 5) (.fin 10)).angle = .fin (5 / 10 * 270) ∧
    (createCircularGauge (.fin 5) (.fin 10)).offset =
      .fin (2 * Math_PI * 45 - 5 / 10 * 270 / 360 * (2 * Math_PI * 45)) ∧
    (createCircularGauge (.fin 5) (.fin 10)).offset =
      .fin (2 * Math_PI * 45 * (1 - 0.75 * 5 / 10)) ∧
    (createCircularGauge (.fin 5) (.fin 10)).html.strokeDashoffset =
      (createCircularGauge (.fin 5) (.fin 10)).offset ∧
    (createCircularGauge (.fin 5) (.fin 10)).circumference = .fin (2 * Math_PI * 45) ∧
    (createCircularGauge (.fin 5) (.fin 10)).html.strokeDasharray =
      .fin (2 * Math_PI * 45) :=
  gauge_geometry 5 10 (by norm_num)

/-- C10: for every `maxScore > 0` and all finite scores `s1 <= s2`, the sweep angle of
`s1` is `<=` that of `s2` and the stroke-dashoffset of `s1` is `>=` that of `s2`, both
strictly when `s1 < s2`. -/
theorem gauge_monotone (maxScore s1 s2 : ℚ) (hm : 0 < maxScore) (h : s1 ≤ s2) :
    ((createCircularGauge (.fin s1) (.fin maxScore)).angle.le
        (createCircularGauge (.fin s2) (.fin maxScore)).angle = true) ∧
    ((createCircularGauge (.fin s1) (.fin maxScore)).offset.ge
        (createCircularGauge (.fin s2) (.fin maxScore)).offset = true) ∧
    (s1 < s2 →
      ((createCircularGauge (.fin s1) (.fin maxScore)).angle.lt
          (createCircularGauge (.fin s2) (.fin maxScore)).angle = true) ∧
      ((createCircularGauge (.fin s1) (.fin maxScore)).offset.gt
          (createCircularGauge (.fin s2) (.fin maxScore)).offset = true)) := by
  have hpi := Math_PI_pos
  rw [(gauge_fin s1 maxScore hm.ne').1, (gauge_fin s2 maxScore hm.ne').1,
    (gauge_fin s1 maxScore hm.ne').2, (gauge_fin s2 maxScore hm.ne').2]
  simp only [JSNum.le, JSNum.ge, JSNum.lt, JSNum.gt, decide_eq_true_eq]
  have hd : s1 / maxScore ≤ s2 / maxScore := div_le_div_of_nonneg_right h hm.le
  have hC : 0 < 2 * Math_PI * 45 := by positivity
  refine ⟨by linarith, ?_, ?_⟩
  · have := mul_le_mul_of_nonneg_right hd hC.le
    linarith
  · intro hlt
    have hd2 : s1 / maxScore < s2 / maxScore := div_lt_div_of_pos_right hlt hm
    have := mul_lt_mul_of_pos_right hd2 hC
    constructor <;> linarith

/-- Witness of `gauge_monotone` at `maxScore` 10 and scores 3 and 7. -/
theorem gauge_monotone_witness :
    ((createCircularGauge (.fin 3) (.fin 10)).angle.le
        (createCircularGauge (.fin 7) (.fin 10)).angle = true) ∧
    ((createCircularGauge (.fin 3) (.fin 10)).offset.ge
        (createCircularGauge (.fin 7) (.fin 10)).offset = true) ∧
    ((3 : ℚ) < 7 →
      ((createCircularGauge (.fin 3) (.fin 10)).angle.lt
          (createCircularGauge (.fin 7) (.fin 10)).angle = true) ∧
      ((createCircularGauge (.fin 3) (.fin 10)).offset.gt
          (createCircularGauge (.fin 7) (.fin 10)).offset = true)) :=
  gauge_monotone 10 3 7 (by norm_num) (by norm_num)

/-! ## Gauge extremes, range and totality -/

/-- C11: `createCircularGauge(10, 10)` has sweep angle 270 and stroke-dashoffset one
quarter of the circumference `2 * Math.PI * 45`, the smallest dashoffset (and largest
sweep) of any score in `[0, 10]`; `createCircularGauge(0, 10)` has sweep angle 0 and
stroke-dashoffset the full circumference, the largest dashoffset (and smallest sweep) of
any score in `[0, 10]`. -/
theorem gauge_extremes (score : ℚ) (h0 : 0 ≤ score) (h10 : score ≤ 10) :
    (createCircularGauge (.fin 10) (.fin 10)).angle = .fin 270 ∧
    (createCircularGauge (.fin 10) (.fin 10)).offset = .fin (2 * Math_PI * 45 / 4) ∧
    (createCircularGauge (.fin 10) (.fin 10)).html.strokeDashoffset =
      .fin (2 * Math_PI * 45 / 4) ∧
    (createCircularGauge (.fin 10) (.fin 10)).offset.le
      (createCircularGauge (.fin score) (.fin 10)).offset = true ∧
    (createCircularGauge (.fin score) (.fin 10)).angle.le
      (createCircularGauge (.fin 10) (.fin 10)).angle = true ∧
    (createCircularGauge (.fin 0) (.fin 10)).angle = .fin 0 ∧
    (createCircularGauge (.fin 0) (.fin 10)).offset = .fin (2 * Math_PI * 45) ∧
    (createCircularGauge (.fin 0) (.fin 10)).html.strokeDashoffset =
      .fin (2 * Math_PI * 45) ∧
    (createCircularGauge (.fin 0) (.fin 10)).angle.le
      (createCircularGauge (.fin score) (.fin 10)).angle = true ∧
    (createCircularGauge (.fin score) (.fin 10)).offset.le
      (createCircularGauge (.fin 0) (.fin 10)).offset = true := by
  have hpi := Math_PI_pos
  have h10ne : (10 : ℚ) ≠ 0 := by norm_num
  have e10 := gauge_fin 10 10 h10ne
  have e0 := gauge_fin 0 10 h10ne
  have es := gauge_fin score 10 h10ne
  have a10 : (createCircularGauge (.fin 10) (.fin 10)).angle = .fin 270 := by
    rw [e10.1]; norm_num
  have o10 : (createCircularGauge (.fin 10) (.fin 10)).offset =
      .fin (2 * Math_PI * 45 / 4) := by
    rw [e10.2]; congr 1; ring
  have a0 : (createCircularGauge (.fin 0) (.fin 10)).angle = .fin 0 := by
    rw [e0.1]; norm_num
  have o0 : (createCircularGauge (.fin 0) (.fin 10)).offset = .fin (2 * Math_PI * 45) := by
    rw [e0.2]; congr 1; ring
  refine ⟨a10, o10, o10, ?_, ?_, a0, o0, o0, ?_, ?_⟩
  · rw [o10, es.2]
    simp only [JSNum.le, decide_eq_true_eq]
    nlinarith
  · rw [a10, es.1]
    simp only [JSNum.le, decide_eq_true_eq]
    linarith
  · rw [a0, es.1]
    simp only [JSNum.le, decide_eq_true_eq]
    linarith
  · rw [o0, es.2]
    simp only [JSNum.le, decide_eq_true_eq]
    nlinarith

/-- Witness of `gauge_extremes` at score 4. -/
theorem gauge_extremes_witness :
    (createCircularGauge (.fin 10) (.fin 10)).angle = .fin 270 ∧
    (createCircularGauge (.fin 10) (.fin 10)).offset = .fin (2 * Math_PI * 45 / 4) ∧
    (createCircularGauge (.fin 10) (.fin 10)).html.strokeDashoffset =
      .fin (2 * Math_PI * 45 / 4) ∧
    (createCircularGauge (.fin 10) (.fin 10)).offset.le
      (createCircularGauge (.fin 4) (.fin 10)).offset = true ∧
    (createCircularGauge (.fin 4) (.fin 10)).angle.le
      (createCircularGauge (.fin 10) (.fin 10)).angle = true ∧
    (createCircularGauge (.fin 0) (.fin 10)).angle = .fin 0 ∧
    (createCircularGauge (.fin 0) (.fin 10)).offset = .fin (2 * Math_PI * 45) ∧
    (createCircularGauge (.fin 0) (.fin 10)).html.strokeDashoffset =
      .fin (2 * Math_PI * 45) ∧
    (createCircularGauge (.fin 0) (.fin 10)).angle.le
      (createCircularGauge (.fin 4) (.fin 10)).angle = true ∧
    (createCircularGauge (.fin 4) (.fin 10)).offset.le
      (createCircularGauge (.fin 0) (.fin 10)).offset = true :=
  gauge_extremes 4 (by norm_num) (by norm_num)

/-- C12, counterexample: score 20 keeps the tier of score 10 but is displayed as 20,
with sweep angle 540 instead of 270 and another dashoffset; score -5 is displayed as
-5 with sweep angle -135 instead of 0. Nothing is clamped. -/
theorem gauge_clamp_counterexample :
    (createCircularGauge (.fin 20) (.fin 10)).angle = .fin 540 ∧
    (createCircularGauge (.fin 10) (.fin 10)).angle = .fin 270 ∧
    (createCircularGauge (.fin 20) (.fin 10)).html.scoreText ≠
      (createCircularGauge (.fin 10) (.fin 10)).html.scoreText ∧
    (createCircularGauge (.fin 20) (.fin 10)).html.strokeDashoffset ≠
      (createCircularGauge (.fin 10) (.fin 10)).html.strokeDashoffset ∧
    (createCircularGauge (.fin (-5)) (.fin 10)).angle = .fin (-135) ∧
    (createCircularGauge (.fin 0) (.fin 10)).angle = .fin 0 ∧
    (createCircularGauge (.fin (-5)) (.fin 10)).html.scoreText ≠
      (createCircularGauge (.fin 0) (.fin 10)).html.scoreText := by
  have hpi := Math_PI_pos
  have h10ne : (10 : ℚ) ≠ 0 := by norm_num
  refine ⟨?_, ?_, ?_, ?_, ?_, ?_, ?_⟩
  · rw [(gauge_fin 20 10 h10ne).1]; norm_num
  · rw [(gauge_fin 10 10 h10ne).1]; norm_num
  · simp [createCircularGauge]
  · show (createCircularGauge (.fin 20) (.fin 10)).offset ≠
      (createCircularGauge (.fin 10) (.fin 10)).offset
    rw [(gauge_fin 20 10 h10ne).2, (gauge_fin 10 10 h10ne).2]
    intro h
    injection h with h
    nlinarith
  · rw [(gauge_fin (-5) 10 h10ne).1]; norm_num
  · rw [(gauge_fin 0 10 h10ne).1]; norm_num
  · simp [createCircularGauge]

/-- C12, amended: out-of-range scores are not clamped. For every score above 10
`createCircularGauge` gives the tier and colour of score 10 (Strong Buy) but displays the
score itself, with sweep angle `score / 10 * 270` above 270 and a dashoffset below a
quarter of the circumference; for every score below 0 it gives the tier and colour of
score 0 (Strong Sell), displays the score itself, with a negative sweep angle and a
dashoffset above the circumference. -/
theorem gauge_not_clamped (hi lo : ℚ) (hhi : 10 < hi) (hlo : lo < 0) :
    ((createCircularGauge (.fin hi) (.fin 10)).rating = "Strong Buy" ∧
      (createCircularGauge (.fin hi) (.fin 10)).rating =
        (createCircularGauge (.fin 10) (.fin 10)).rating ∧
      (createCircularGauge (.fin hi) (.fin 10)).color =
        (createCircularGauge (.fin 10) (.fin 10)).color ∧
      (createCircularGauge (.fin hi) (.fin 10)).html.scoreText = .fin hi ∧
      (createCircularGauge (.fin hi) (.fin 10)).angle = .fin (hi / 10 * 270) ∧
      (createCircularGauge (.fin hi) (.fin 10)).angle.gt (.fin 270) = true ∧
      (createCircularGauge (.fin hi) (.fin 10)).html.strokeDashoffset.lt
        (.fin (2 * Math_PI * 45 / 4)) = true) ∧
    ((createCircularGauge (.fin lo) (.fin 10)).rating = "Strong Sell" ∧
      (createCircularGauge (.fin lo) (.fin 10)).rating =
        (createCircularGauge (.fin 0) (.fin 10)).rating ∧
      (createCircularGauge (.fin lo) (.fin 10)).color =
        (createCircularGauge (.fin 0) (.fin 10)).color ∧
      (createCircularGauge (.fin lo) (.fin 10)).html.scoreText = .fin lo ∧
      (createCircularGauge (.fin lo) (.fin 10)).angle = .fin (lo / 10 * 270) ∧
      (createCircularGauge (.fin lo) (.fin 10)).angle.lt (.fin 0) = true ∧
      (createCircularGauge (.fin lo) (.fin 10)).html.strokeDashoffset.gt
        (.fin (2 * Math_PI * 45)) = true) := by
  have hpi := Math_PI_pos
  have h10ne : (10 : ℚ) ≠ 0 := by norm_num
  have rhi : gaugeColorRating (.fin hi) = ("#22c55e", "Strong Buy") := by
    rw [gaugeColorRating_fin, if_pos (by linarith)]
  have r10 : gaugeColorRating (.fin 10) = ("#22c55e", "Strong Buy") := by
    rw [gaugeColorRating_fin, if_pos (by norm_num)]
  have rlo : gaugeColorRating (.fin lo) = ("#ef4444", "Strong Sell") := by
    rw [gaugeColorRating_fin, if_neg (by linarith), if_neg (by linarith), if_neg (by linarith),
      if_neg (by linarith)]
  have r0 : gaugeColorRating (.fin 0) = ("#ef4444", "Strong Sell") := by
    rw [gaugeColorRating_fin]
    norm_num
  refine ⟨⟨?_, ?_, ?_, rfl, (gauge_fin hi 10 h10ne).1, ?_, ?_⟩,
    ⟨?_, ?_, ?_, rfl, (gauge_fin lo 10 h10ne).1, ?_, ?_⟩⟩
  · show (gaugeColorRating (.fin hi)).2 = _
    rw [rhi]
  · show (gaugeColorRating (.fin hi)).2 = (gaugeColorRating (.fin 10)).2
    rw [rhi, r10]
  · show (gaugeColorRating (.fin hi)).1 = (gaugeColorRating (.fin 10)).1
    rw [rhi, r10]
  · rw [(gauge_fin hi 10 h10ne).1]
    simp only [JSNum.gt, JSNum.lt, decide_eq_true_eq]
    linarith
  · show (createCircularGauge (.fin hi) (.fin 10)).offset.lt _ = true
    rw [(gauge_fin hi 10 h10ne).2]
    simp only [JSNum.lt, decide_eq_true_eq]
    nlinarith
  · show (gaugeColorRating (.fin lo)).2 = _
    rw [rlo]
  · show (gaugeColorRating (.fin lo)).2 = (gaugeColorRating (.fin 0)).2
    rw [rlo, r0]
  · show (gaugeColorRating (.fin lo)).1 = (gaugeColorRating (.fin 0)).1
    rw [rlo, r0]
  · rw [(gauge_fin lo 10 h10ne).1]
    simp only [JSNum.lt, decide_eq_true_eq]
    linarith
  · show (createCircularGauge (.fin lo) (.fin 10)).offset.gt _ = true
    rw [(gauge_fin lo 10 h10ne).2]
    simp only [JSNum.gt, JSNum.lt, decide_eq_true_eq]
    nlinarith

/-- Witness of `gauge_not_clamped` at the scores 20 and -5. -/
theorem gauge_not_clamped_witness :
    ((createCircularGauge (.fin 20) (.fin 10)).rating = "Strong Buy" ∧
      (createCircularGauge (.fin 20) (.fin 10)).rating =
        (createCircularGauge (.fin 10) (.fin 10)).rating ∧
      (createCircularGauge (.fin 20) (.fin 10)).color =
        (createCircularGauge (.fin 10) (.fin 10)).color ∧
      (createCircularGauge (.fin 20) (.fin 10)).html.scoreText = .fin 20 ∧
      (createCircularGauge (.fin 20) (.fin 10)).angle = .fin (20 / 10 * 270) ∧
      (createCircularGauge (.fin 20) (.fin 10)).angle.gt (.fin 270) = true ∧
      (createCircularGauge (.fin 20) (.fin 10)).html.strokeDashoffset.lt
        (.fin (2 * Math_PI * 45 / 4)) = true) ∧
    ((createCircularGauge (.fin (-5)) (.fin 10)).rating = "Strong Sell" ∧
      (createCircularGauge (.fin (-5)) (.fin 10)).rating =
        (createCircularGauge (.fin 0) (.fin 10)).rating ∧
      (createCircularGauge (.fin (-5)) (.fin 10)).color =
        (createCircularGauge (.fin 0) (.fin 10)).color ∧
      (createCircularGauge (.fin (-5)) (.fin 10)).html.scoreText = .fin (-5) ∧
      (createCircularGauge (.fin (-5)) (.fin 10)).angle = .fin (-5 / 10 * 270) ∧
      (createCircularGauge (.fin (-5)) (.fin 10)).angle.lt (.fin 0) = true ∧
      (createCircularGauge (.fin (-5)) (.fin 10)).html.strokeDashoffset.gt
        (.fin (2 * Math_PI * 45)) = true) :=
  gauge_not_clamped 20 (-5) (by norm_num) (by norm_num)

/-- C13: the tier is monotonic non-decreasing in the score: for all finite scores
`s1 <= s2` the rank of the rating of `s1`, in the order Strong Sell < Sell < Hold < Buy <
Strong Buy, is at most the rank of the rating of `s2`, for the rating chosen by
`createCircularGauge` and for the label of `getRatingFromScore` alike. -/
theorem tier_monotone (s1 s2 : ℚ) (maxScore : JSNum) (h : s1 ≤ s2) :
    ∃ r1 r2 : ℕ,
      tierRank (createCircularGauge (.fin s1) maxScore).rating = some r1 ∧
      tierRank (createCircularGauge (.fin s2) maxScore).rating = some r2 ∧
      tierRank (getRatingFromScore (.fin s1)).label = some r1 ∧
      tierRank (getRatingFromScore (.fin s2)).label = some r2 ∧
      r1 ≤ r2 := by
  have hl : ∀ s : ℚ, (getRatingFromScore (.fin s)).label = (gaugeColorRating (.fin s)).2 := by
    intro s
    rw [getRatingFromScore_fin, gaugeColorRating_fin]
    split_ifs <;> rfl
  refine ⟨_, _, tierRank_rating s1, tierRank_rating s2, ?_, ?_, ?_⟩
  · rw [hl]; exact tierRank_rating s1
  · rw [hl]; exact tierRank_rating s2
  · split_ifs <;> first | omega | (exfalso; linarith)

/-- Witness of `tier_monotone` at the scores 4 and 8. -/
theorem tier_monotone_witness :
    ∃ r1 r2 : ℕ,
      tierRank (createCircularGauge (.fin 4) (.fin 10)).rating = some r1 ∧
      tierRank (createCircularGauge (.fin 8) (.fin 10)).rating = some r2 ∧
      tierRank (getRatingFromScore (.fin 4)).label = some r1 ∧
      tierRank (getRatingFromScore (.fin 8)).label = some r2 ∧
      r1 ≤ r2 :=
  tier_monotone 4 8 (.fin 10) (by norm_num)

/-- C14: for every finite probability `p`, `createProbabilityBar` picks `#22c55e` iff
`p >= 0.7`, `#a3e635` iff `0.5 <= p < 0.7`, `#fbbf24` iff `0.3 <= p < 0.5` and `#ef4444`
iff `p < 0.3`, and its result does not depend on the direction argument. -/
theorem probability_colour (p : ℚ) (d1 d2 : String) :
    ((createProbabilityBar (.fin p) d1).color = "#22c55e" ↔ 7 / 10 ≤ p) ∧
    ((createProbabilityBar (.fin p) d1).color = "#a3e635" ↔ 5 / 10 ≤ p ∧ p < 7 / 10) ∧
    ((createProbabilityBar (.fin p) d1).color = "#fbbf24" ↔ 3 / 10 ≤ p ∧ p < 5 / 10) ∧
    ((createProbabilityBar (.fin p) d1).color = "#ef4444" ↔ p < 3 / 10) ∧
    createProbabilityBar (.fin p) d1 = createProbabilityBar (.fin p) d2 := by
  have hc : (createProbabilityBar (.fin p) d1).color =
      if 7 / 10 ≤ p then "#22c55e"
      else if 5 / 10 ≤ p then "#a3e635"
      else if 3 / 10 ≤ p then "#fbbf24"
      else "#ef4444" := by
    simp only [createProbabilityBar, JSNum.ge, JSNum.le, decide_eq_true_eq]
    norm_num
  rw [hc]
  refine ⟨?_, ?_, ?_, ?_, rfl⟩
  all_goals
    split_ifs <;> simp <;>
      first
        | linarith
        | exact ⟨by linarith, by linarith⟩
        | (intro _; linarith)

/-- C15, the code at a missing score: `createCircularGauge(undefined, 10)` chooses the
tier Strong Sell with its red colour and emits the dashoffset `NaN`;
`createCircularGauge(null, 10)` chooses Strong Sell too, with the dashoffset of score 0.
Neither is given an indeterminate classification. -/
theorem gauge_missing_score :
    (createCircularGauge_json .undefined (.fin 10)).gauge.rating = "Strong Sell" ∧
    (createCircularGauge_json .undefined (.fin 10)).gauge.html.stroke = "#ef4444" ∧
    (createCircularGauge_json .undefined (.fin 10)).gauge.html.strokeDashoffset = .nan ∧
    (createCircularGauge_json .undefined (.fin 10)).scoreText = .undefined ∧
    (createCircularGauge_json .null (.fin 10)).gauge.rating = "Strong Sell" ∧
    (createCircularGauge_json .null (.fin 10)).gauge.html.stroke = "#ef4444" ∧
    (createCircularGauge_json .null (.fin 10)).gauge.html.strokeDashoffset =
      .fin (2 * Math_PI * 45) ∧
    (createCircularGauge_json .null (.fin 10)).scoreText = .null := by
  have r0 : gaugeColorRating (.fin 0) = ("#ef4444", "Strong Sell") := by
    rw [gaugeColorRating_fin]
    norm_num
  have rn : gaugeColorRating .nan = ("#ef4444", "Strong Sell") := by
    simp [gaugeColorRating, JSNum.ge, JSNum.le]
  refine ⟨?_, ?_, ?_, rfl, ?_, ?_, ?_, rfl⟩
  · show (gaugeColorRating .nan).2 = _
    rw [rn]
  · show (gaugeColorRating .nan).1 = _
    rw [rn]
  · simp [createCircularGauge_json, createCircularGauge, JSVal.toNumber, JSNum.div, JSNum.mul,
      JSNum.sub]
  · show (gaugeColorRating (.fin 0)).2 = _
    rw [r0]
  · show (gaugeColorRating (.fin 0)).1 = _
    rw [r0]
  · show (createCircularGauge (.fin 0) (.fin 10)).offset = _
    rw [(gauge_fin 0 10 (by norm_num)).2]
    congr 1
    ring

/-- C16, counterexample: with `maxScore` 0 the division is not guarded. Score 5 has sweep
angle `Infinity` and dashoffset `-Infinity`, score 0 has sweep angle and dashoffset
`NaN`. -/
theorem gauge_zero_max_counterexample :
    (createCircularGauge (.fin 5) (.fin 0)).angle = .posInf ∧
    (createCircularGauge (.fin 5) (.fin 0)).html.strokeDashoffset = .negInf ∧
    (createCircularGauge (.fin 0) (.fin 0)).angle = .nan ∧
    (createCircularGauge (.fin 0) (.fin 0)).html.strokeDashoffset = .nan := by
  refine ⟨?_, ?_, ?_, ?_⟩
  · rw [(gauge_zero_max 5).1]; norm_num
  · show (createCircularGauge (.fin 5) (.fin 0)).offset = _
    rw [(gauge_zero_max 5).2]; norm_num
  · rw [(gauge_zero_max 0).1]; norm_num
  · show (createCircularGauge (.fin 0) (.fin 0)).offset = _
    rw [(gauge_zero_max 0).2]; norm_num

/-- C16, amended: for every finite `maxScore` other than 0 and every finite score with
`|score / maxScore| <= 10^300`, `createCircularGauge` yields a finite sweep angle and a
finite stroke-dashoffset, both below `10^303` in magnitude, so that no product on the
way overflows; with `maxScore` 0 the division is unguarded and neither the sweep angle
nor the dashoffset is finite. -/
theorem gauge_finite (score maxScore : ℚ) (hm : maxScore ≠ 0)
    (hb : |score| ≤ 10 ^ 300 * |maxScore|) :
    (∃ a o : ℚ,
      (createCircularGauge (.fin score) (.fin maxScore)).angle = .fin a ∧
      (createCircularGauge (.fin score) (.fin maxScore)).offset = .fin o ∧
      (createCircularGauge (.fin score) (.fin maxScore)).html.strokeDashoffset = .fin o ∧
      |a| ≤ 10 ^ 303 ∧ |o| ≤ 10 ^ 303) ∧
    (∀ x : ℚ,
      (createCircularGauge (.fin score) (.fin 0)).angle ≠ .fin x ∧
      (createCircularGauge (.fin score) (.fin 0)).html.strokeDashoffset ≠ .fin x) := by
  have hpi := Math_PI_pos
  have hpi4 : Math_PI < 4 := by norm_num [Math_PI]
  have hmpos : 0 < |maxScore| := abs_pos.mpr hm
  have hr : |score / maxScore| ≤ 10 ^ 300 := by
    rw [abs_div, div_le_iff₀ hmpos]
    exact hb
  have hK : (1 : ℚ) ≤ 10 ^ 300 := one_le_pow₀ (by norm_num)
  have h303 : (10 : ℚ) ^ 303 = 10 ^ 300 * 1000 := by norm_num
  obtain ⟨hr1, hr2⟩ := abs_le.mp hr
  refine ⟨⟨_, _, (gauge_fin score maxScore hm).1, (gauge_fin score maxScore hm).2,
    (gauge_fin score maxScore hm).2, ?_, ?_⟩, ?_⟩
  · rw [h303, abs_le]
    constructor <;> linarith
  · rw [h303, abs_le]
    constructor <;> nlinarith
  · intro x
    constructor
    · rw [(gauge_zero_max score).1]
      split_ifs <;> simp
    · show (createCircularGauge (.fin score) (.fin 0)).offset ≠ _
      rw [(gauge_zero_max score).2]
      split_ifs <;> simp

/-- Witness of `gauge_finite` at score 5 and `maxScore` 10. -/
theorem gauge_finite_witness :
    (∃ a o : ℚ,
      (createCircularGauge (.fin 5) (.fin 10)).angle = .fin a ∧
      (createCircularGauge (.fin 5) (.fin 10)).offset = .fin o ∧
      (createCircularGauge (.fin 5) (.fin 10)).html.strokeDashoffset = .fin o ∧
      |a| ≤ 10 ^ 303 ∧ |o| ≤ 10 ^ 303) ∧
    (∀ x : ℚ,
      (createCircularGauge (.fin 5) (.fin 0)).angle ≠ .fin x ∧
      (createCircularGauge (.fin 5) (.fin 0)).html.strokeDashoffset ≠ .fin x) :=
  gauge_finite 5 10 (by norm_num) (by norm_num [abs_of_nonneg])

/-! ## History verdicts of `renderCards` and `renderCards_fixed` -/

/-- C17: the accuracy definitions diverge. For direction UP, predicted move +1, open 100
and close 100 the daily archive card judges the sentiment correct, while the history card
of `renderCards` judges the prediction Missed. -/
theorem accuracy_diverges :
    (∃ card, renderArchiveCards_daily (.num 1) (some ⟨.num 100, .num 100, .undefined⟩) =
        .ok card ∧
      card.predictedDirection = "UP" ∧
      card.sentimentCorrect = true ∧ card.sentimentBadge = .correct) ∧
    (∃ perf, renderCards_performance true (some ⟨"UP"⟩) (some ⟨.num 100, .num 100⟩) =
        some perf ∧
      perf.predictionCorrect = false ∧ perf.verdict = "Missed") := by
  constructor
  · have hm : fixed2Mag ((100 - 100) / 100 * 100) = ((0 : ℤ) : ℚ) / 100 := by
      apply fixed2Mag_eq <;> norm_num
    have hv : fixed2Value ((100 - 100) / 100 * 100) = 0 := by
      unfold fixed2Value
      rw [hm]
      norm_num
    refine ⟨_, daily_complete 1 100 100 .undefined (by norm_num) (by norm_num), ?_, ?_, ?_⟩
    · norm_num
    · rw [hv]; norm_num
    · rw [hv]; norm_num
  · obtain ⟨perf, hp, -, hc, hv⟩ :=
      renderCards_complete (some ⟨"UP"⟩) 100 100 (by norm_num) (by norm_num)
    have hfalse : perf.predictionCorrect = false := by
      rw [← Bool.not_eq_true, hc]
      simp
    refine ⟨perf, hp, hfalse, ?_⟩
    rw [hv, hfalse]
    rfl

/-- C18: in the history view of `renderCards`, for every record whose open and close are
non-zero numbers, the prediction is judged Correct exactly when (direction UP and actual
move > 0) or (direction DOWN and actual move < 0) or (direction NEUTRAL and
|actual move| < 0.2), and Missed otherwise, in particular for every other direction. The
actual move is the unrounded value the code computes for `(close - open) / open * 100`,
whatever the evaluation `moveOf` of that expression; in exact arithmetic the expression
is `(close - open) / open * 100`. -/
theorem history_verdict (moveOf : JSNum → JSNum → JSNum) (d : String) (o c : ℚ)
    (ho : o ≠ 0) (hc : c ≠ 0) :
    ∃ perf, renderCards_performance_of moveOf true (some ⟨d⟩) (some ⟨.num c, .num o⟩) =
        some perf ∧
      perf.actualMovePercent = moveOf (.fin c) (.fin o) ∧
      exactMove (.fin c) (.fin o) = .fin ((c - o) / o * 100) ∧
      (perf.verdict = "Correct" ↔
        (d = "UP" ∧ perf.actualMovePercent.gt (.fin 0) = true) ∨
          (d = "DOWN" ∧ perf.actualMovePercent.lt (.fin 0) = true) ∨
          (d = "NEUTRAL" ∧ perf.actualMovePercent.abs.lt (.fin 0.2) = true)) ∧
      (perf.verdict = "Missed" ↔
        ¬ ((d = "UP" ∧ perf.actualMovePercent.gt (.fin 0) = true) ∨
          (d = "DOWN" ∧ perf.actualMovePercent.lt (.fin 0) = true) ∨
          (d = "NEUTRAL" ∧ perf.actualMovePercent.abs.lt (.fin 0.2) = true))) ∧
      (∀ m : ℚ, moveOf (.fin c) (.fin o) = .fin m →
        (perf.verdict = "Correct" ↔
          (d = "UP" ∧ 0 < m) ∨ (d = "DOWN" ∧ m < 0) ∨ (d = "NEUTRAL" ∧ |m| < 0.2))) ∧
      (d ≠ "UP" → d ≠ "DOWN" → d ≠ "NEUTRAL" → perf.verdict = "Missed") := by
  obtain ⟨perf, hp, ha, hcor, hv⟩ := renderCards_of_complete moveOf (some ⟨d⟩) o c ho hc
  have hd : ((some (⟨d⟩ : Prediction)).getD ⟨"NEUTRAL"⟩).direction = d := rfl
  rw [hd, ← ha] at hcor
  have h1 : perf.verdict = "Correct" ↔ perf.predictionCorrect = true := by
    rw [hv]
    cases perf.predictionCorrect <;> simp
  have h2 : perf.verdict = "Missed" ↔ ¬ perf.predictionCorrect = true := by
    rw [hv]
    cases perf.predictionCorrect <;> simp
  refine ⟨perf, hp, ha, exactMove_fin c o ho, h1.trans hcor, h2.trans (not_congr hcor),
    ?_, ?_⟩
  · intro m hm
    rw [h1, hcor, ha, hm]
    simp only [JSNum.gt, JSNum.lt, JSNum.abs, decide_eq_true_eq]
  · intro hU hD hN
    rw [h2, hcor]
    simp [hU, hD, hN]

/-- Witness of `history_verdict` at the exact evaluation, direction UP, open 100 and
close 102. -/
theorem history_verdict_witness :
    ∃ perf, renderCards_performance_of exactMove true (some ⟨"UP"⟩)
        (some ⟨.num 102, .num 100⟩) = some perf ∧
      perf.actualMovePercent = exactMove (.fin 102) (.fin 100) ∧
      exactMove (.fin 102) (.fin 100) = .fin ((102 - 100) / 100 * 100) ∧
      (perf.verdict = "Correct" ↔
        ("UP" = "UP" ∧ perf.actualMovePercent.gt (.fin 0) = true) ∨
          ("UP" = "DOWN" ∧ perf.actualMovePercent.lt (.fin 0) = true) ∨
          ("UP" = "NEUTRAL" ∧ perf.actualMovePercent.abs.lt (.fin 0.2) = true)) ∧
      (perf.verdict = "Missed" ↔
        ¬ (("UP" = "UP" ∧ perf.actualMovePercent.gt (.fin 0) = true) ∨
          ("UP" = "DOWN" ∧ perf.actualMovePercent.lt (.fin 0) = true) ∨
          ("UP" = "NEUTRAL" ∧ perf.actualMovePercent.abs.lt (.fin 0.2) = true))) ∧
      (∀ m : ℚ, exactMove (.fin 102) (.fin 100) = .fin m →
        (perf.verdict = "Correct" ↔
          ("UP" = "UP" ∧ 0 < m) ∨ ("UP" = "DOWN" ∧ m < 0) ∨
            ("UP" = "NEUTRAL" ∧ |m| < 0.2))) ∧
      ("UP" ≠ "UP" → "UP" ≠ "DOWN" → "UP" ≠ "NEUTRAL" → perf.verdict = "Missed") :=
  history_verdict exactMove "UP" 100 102 (by norm_num) (by norm_num)

/-- C19: `renderCards` never divides by a zero or missing open. The performance block is
produced exactly when `isHistory` is true and open and close are both non-zero numbers,
its actual move is then the finite `(close - open) / open * 100`, and otherwise the
performance markup is empty; a record with no price object gets the empty markup. -/
theorem performance_block_iff (isHistory : Bool) (pred : Option Prediction)
    (price : Option PriceData) :
    ((renderCards_performance isHistory pred price).isSome = true ↔
      isHistory = true ∧ ∃ o c : ℚ, price = some ⟨.num c, .num o⟩ ∧ o ≠ 0 ∧ c ≠ 0) ∧
    (renderCards_performance isHistory pred price = none ↔
      ¬ (isHistory = true ∧ ∃ o c : ℚ, price = some ⟨.num c, .num o⟩ ∧ o ≠ 0 ∧ c ≠ 0)) ∧
    (∀ perf, renderCards_performance isHistory pred price = some perf →
      ∃ o c : ℚ, price = some ⟨.num c, .num o⟩ ∧ o ≠ 0 ∧
        perf.actualMovePercent = .fin ((c - o) / o * 100)) ∧
    renderCards_performance isHistory pred none = none ∧
    renderCards_performance isHistory pred (some ⟨.num 0, .num 0⟩) = none := by
  have h1 := renderCards_isSome_iff isHistory pred price
  refine ⟨h1, ?_, ?_, ?_, ?_⟩
  · rw [← h1]
    cases renderCards_performance isHistory pred price <;> simp
  · intro perf h
    have hs : (renderCards_performance isHistory pred price).isSome = true := by
      rw [h]; rfl
    obtain ⟨hH, o, c, rfl, ho, hc⟩ := h1.mp hs
    subst hH
    obtain ⟨perf2, h2, ha, -, -⟩ := renderCards_complete pred o c ho hc
    rw [h2] at h
    injection h with h
    subst h
    exact ⟨o, c, rfl, ho, ha⟩
  · simp [renderCards_performance, JSVal.truthy]
  · simp [renderCards_performance, JSVal.truthy]

/-- C20, the code on the records of the history view: `renderCards_fixed` does not give
the verdict of `renderCards`. On a history record as `loadHistoryDate` builds it (no
`company`, open 100 and close 102 under `price`, direction UP) `renderCards` shows
Correct while `renderCards_fixed` throws a `TypeError`; with a `company` added it
appends a card with no verdict, the prices being read from `actual_open` and
`actual_close`; and on a NEUTRAL prediction with `actual_open` 100 and `actual_close` 100
it shows INCORRECT where `renderCards` shows Correct. -/
theorem fixed_verdict_divergence :
    (∃ perf, renderCards_performance true (some ⟨"UP"⟩) (some ⟨.num 102, .num 100⟩) =
        some perf ∧
      perf.verdict = "Correct" ∧
      renderCards_fixed_performance "history"
        ⟨none, some ⟨"UP", .undefined, .undefined⟩, some ⟨.num 102, .num 100⟩,
          some .undefined⟩ = .error .typeError ∧
      renderCards_fixed_performance "history"
        ⟨some ⟨"X", "X", false⟩, some ⟨"UP", .undefined, .undefined⟩,
          some ⟨.num 102, .num 100⟩, some .undefined⟩ = .ok none) ∧
    (∃ perf fperf,
      renderCards_performance true (some ⟨"NEUTRAL"⟩) (some ⟨.num 100, .num 100⟩) =
        some perf ∧
      renderCards_fixed_performance "history"
        ⟨some ⟨"X", "X", false⟩, some ⟨"NEUTRAL", .num 100, .num 100⟩,
          some ⟨.num 100, .num 100⟩, some .undefined⟩ = .ok (some fperf) ∧
      perf.predictionCorrect = true ∧ perf.verdict = "Correct" ∧
      fperf.isCorrect = false ∧ fperf.verdict = "INCORRECT") := by
  constructor
  · obtain ⟨perf, hp, -, hc, hv⟩ :=
      renderCards_complete (some ⟨"UP"⟩) 100 102 (by norm_num) (by norm_num)
    have h1 : perf.predictionCorrect = true := by
      rw [hc]
      left
      exact ⟨rfl, by norm_num⟩
    refine ⟨perf, hp, ?_, ?_, ?_⟩
    · rw [hv, h1]; rfl
    · simp [renderCards_fixed_performance]
    · simp [renderCards_fixed_performance, JSVal.truthy]
  · obtain ⟨perf, hp, -, hc, hv⟩ :=
      renderCards_complete (some ⟨"NEUTRAL"⟩) 100 100 (by norm_num) (by norm_num)
    obtain ⟨fperf, hfp, -, hfc, hfv⟩ :=
      renderCards_fixed_complete "NEUTRAL" 100 100 ⟨"X", "X", false⟩ ⟨.num 100, .num 100⟩
        (some .undefined) (by norm_num) (by norm_num)
    have h1 : perf.predictionCorrect = true := by
      rw [hc]
      right; right
      exact ⟨rfl, by norm_num⟩
    have h2 : fperf.isCorrect = false := by
      rw [← Bool.not_eq_true, hfc]
      simp
    refine ⟨perf, fperf, hp, hfp, h1, ?_, h2, ?_⟩
    · rw [hv, h1]; rfl
    · rw [hfv, h2]; rfl

/-! ## Market status, rating class, confidence bar and gauge range -/

/-- C21, the code at the clock: `updateMarketStatus` tests the hour alone, so it shows
Market Open exactly for the hours 9 to 15, whatever the minute; at 9:00 and at 15:45 it
shows Market Open, outside the span 9:15 to 15:30 named by the comment of
`script_backup.js`. -/
theorem market_status_by_hour (hour minute : ℕ) :
    ((updateMarketStatus hour).marketState = "Market Open" ↔ 9 ≤ hour ∧ hour < 16) ∧
    ((updateMarketStatus hour).marketState = "Market Closed" ↔ ¬ (9 ≤ hour ∧ hour < 16)) ∧
    updateMarketStatus_backup hour minute = updateMarketStatus hour ∧
    (updateMarketStatus 9).marketState = "Market Open" ∧
    (updateMarketStatus_backup 9 0).marketState = "Market Open" ∧
    (updateMarketStatus 15).marketState = "Market Open" ∧
    (updateMarketStatus_backup 15 45).marketState = "Market Open" := by
  refine ⟨?_, ?_, rfl, by decide, by decide, by decide, by decide⟩
  · unfold updateMarketStatus
    split_ifs with h <;> simp [h]
  · unfold updateMarketStatus
    split_ifs with h <;> simp [h]

/-- C26: for every score, the label of `getRatingFromScore` equals the rating chosen by
`createCircularGauge`, and the class of `getRatingFromScore` equals the gauge's
`ratingClass`, the label in lower case with every space replaced by a hyphen. -/
theorem rating_label_class (score maxScore : JSNum) :
    (getRatingFromScore score).label = (createCircularGauge score maxScore).rating ∧
    (getRatingFromScore score).cls = (createCircularGauge score maxScore).ratingClass ∧
    (getRatingFromScore score).cls = lowerHyphen (getRatingFromScore score).label := by
  have h1 : lowerHyphen "Strong Buy" = "strong-buy" := by decide
  have h2 : lowerHyphen "Buy" = "buy" := by decide
  have h3 : lowerHyphen "Hold" = "hold" := by decide
  have h4 : lowerHyphen "Sell" = "sell" := by decide
  have h5 : lowerHyphen "Strong Sell" = "strong-sell" := by decide
  simp only [getRatingFromScore, createCircularGauge, gaugeColorRating]
  by_cases c9 : score.ge (.fin 9) = true
  · simp [c9, h1]
  · by_cases c7 : score.ge (.fin 7) = true
    · simp [c9, c7, h2]
    · by_cases c5 : score.ge (.fin 5) = true
      · simp [c9, c7, c5, h3]
      · by_cases c3 : score.ge (.fin 3) = true
        · simp [c9, c7, c5, c3, h4]
        · simp [c9, c7, c5, c3, h5]

/-- C27: in `renderDailyCards` and `renderWeeklyCards` the confidence used is the
`confidence_score` when it is a non-zero number and 5 otherwise, the class is `high` iff
it is `>= 7`, `medium` iff it is `>= 5` and `< 7`, `low` otherwise, and the bar width is
ten times the confidence; a score of 0 and a missing score are shown as 5, `medium`,
50 wide. -/
theorem confidence_bar (q : ℚ) :
    renderWeeklyCards_confidence (.num q) = renderDailyCards_confidence (.num q) ∧
    (renderDailyCards_confidence (.num q)).confidence = .fin (if q = 0 then 5 else q) ∧
    (renderDailyCards_confidence (.num q)).confidencePercent =
      .fin ((if q = 0 then 5 else q) * 10) ∧
    ((renderDailyCards_confidence (.num q)).confidenceClass = "high" ↔
      7 ≤ (if q = 0 then 5 else q)) ∧
    ((renderDailyCards_confidence (.num q)).confidenceClass = "medium" ↔
      5 ≤ (if q = 0 then 5 else q) ∧ (if q = 0 then 5 else q) < 7) ∧
    ((renderDailyCards_confidence (.num q)).confidenceClass = "low" ↔
      (if q = 0 then 5 else q) < 5) ∧
    renderDailyCards_confidence (.num 0) = ⟨.fin 5, .fin 50, "medium"⟩ ∧
    renderDailyCards_confidence .null = ⟨.fin 5, .fin 50, "medium"⟩ ∧
    renderDailyCards_confidence .undefined = ⟨.fin 5, .fin 50, "medium"⟩ ∧
    renderWeeklyCards_confidence (.num 0) = ⟨.fin 5, .fin 50, "medium"⟩ ∧
    renderWeeklyCards_confidence .null = ⟨.fin 5, .fin 50, "medium"⟩ ∧
    renderWeeklyCards_confidence .undefined = ⟨.fin 5, .fin 50, "medium"⟩ := by
  have hc : (JSVal.num q).orNum 5 = .fin (if q = 0 then 5 else q) := by
    by_cases h : q = 0 <;> simp [JSVal.orNum, JSVal.truthy, JSVal.toNumber, h]
  have hmiss : ∀ v : JSVal, v.truthy = false →
      renderDailyCards_confidence v = ⟨.fin 5, .fin 50, "medium"⟩ ∧
      renderWeeklyCards_confidence v = ⟨.fin 5, .fin 50, "medium"⟩ := by
    intro v hv
    simp only [renderDailyCards_confidence, renderWeeklyCards_confidence, JSVal.orNum, hv,
      JSNum.div, JSNum.mul, JSNum.ge, JSNum.le]
    norm_num
  have h0 : (JSVal.num 0).truthy = false := by simp [JSVal.truthy]
  refine ⟨rfl, ?_, ?_, ?_, ?_, ?_, (hmiss _ h0).1, (hmiss .null rfl).1,
    (hmiss .undefined rfl).1, (hmiss _ h0).2, (hmiss .null rfl).2, (hmiss .undefined rfl).2⟩
  · simp only [renderDailyCards_confidence, hc]
  · simp only [renderDailyCards_confidence, hc, JSNum.div, JSNum.mul]
    norm_num
    split_ifs <;> ring
  all_goals
    simp only [renderDailyCards_confidence, hc, JSNum.ge, JSNum.le, decide_eq_true_eq]
    generalize (if q = 0 then (5 : ℚ) else q) = c
    split_ifs <;> simp <;>
      first
        | linarith
        | exact ⟨by linarith, by linarith⟩
        | (intro _; linarith)

/-- C28: for every `maxScore > 0` and every score with `0 <= score <= maxScore`, the sweep
angle lies in `[0, 270]` and the stroke-dashoffset in `[C / 4, C]`, where
`C = 2 * Math.PI * 45` is the stroke-dasharray; the drawn arc `C - dashoffset` is at most
three quarters of `C`. -/
theorem gauge_range (score maxScore : ℚ) (hm : 0 < maxScore) (h0 : 0 ≤ score)
    (h1 : score ≤ maxScore) :
    ∃ a o : ℚ,
      (createCircularGauge (.fin score) (.fin maxScore)).angle = .fin a ∧
      (createCircularGauge (.fin score) (.fin maxScore)).html.strokeDashoffset = .fin o ∧
      (createCircularGauge (.fin score) (.fin maxScore)).html.strokeDasharray =
        .fin (2 * Math_PI * 45) ∧
      0 ≤ a ∧ a ≤ 270 ∧
      2 * Math_PI * 45 / 4 ≤ o ∧ o ≤ 2 * Math_PI * 45 ∧
      2 * Math_PI * 45 - o ≤ 3 / 4 * (2 * Math_PI * 45) := by
  have hpi := Math_PI_pos
  have hC : (0 : ℚ) < 2 * Math_PI * 45 := by positivity
  have hr0 : 0 ≤ score / maxScore := div_nonneg h0 hm.le
  have hr1 : score / maxScore ≤ 1 := (div_le_one hm).mpr h1
  refine ⟨_, _, (gauge_fin score maxScore hm.ne').1, (gauge_fin score maxScore hm.ne').2, rfl,
    ?_, ?_, ?_, ?_, ?_⟩
  · positivity
  · linarith
  · nlinarith
  · nlinarith
  · nlinarith

/-- Witness of `gauge_range` at score 5 and `maxScore` 10. -/
theorem gauge_range_witness :
    ∃ a o : ℚ,
      (createCircularGauge (.fin 5) (.fin 10)).angle = .fin a ∧
      (createCircularGauge (.fin 5) (.fin 10)).html.strokeDashoffset = .fin o ∧
      (createCircularGauge (.fin 5) (.fin 10)).html.strokeDasharray =
        .fin (2 * Math_PI * 45) ∧
      0 ≤ a ∧ a ≤ 270 ∧
      2 * Math_PI * 45 / 4 ≤ o ∧ o ≤ 2 * Math_PI * 45 ∧
      2 * Math_PI * 45 - o ≤ 3 / 4 * (2 * Math_PI * 45) :=
  gauge_range 5 10 (by norm_num) (by norm_num) (by norm_num)

/-! ## Missing prediction, `Actual:` line and the weekly and monthly verdict -/

/-- C22: a `predicted_move` that parses to `NaN` (missing, `null`, not parseable) or
that is 0 is taken to be 0. The prediction counts as UP, and on every outcome whose open
and close are non-zero numbers the price result is correct iff the actual move printed
with two decimals has absolute value `<= 0.5`, neither result being pending, whatever
the evaluation `moveOf` of the move; on every outcome the results are pending exactly
when they are pending for any other prediction. -/
theorem daily_missing_prediction (moveOf : JSNum → JSNum → JSNum) (parsed : JSNum)
    (o c : ℚ) (prev : JSVal) (hp : parsed = .nan ∨ parsed = .fin 0) (ho : o ≠ 0)
    (hc : c ≠ 0) :
    (∃ card, renderArchiveCards_daily_of moveOf parsed (some ⟨.num o, .num c, prev⟩) =
        .ok card ∧
      card.actualMove = some (toFixed2 (moveOf (.fin c) (.fin o))) ∧
      card.predictedMove = .fin 0 ∧ card.predictedDirection = "UP" ∧
      (card.priceCorrect = some true ↔
        (toFixed2 (moveOf (.fin c) (.fin o))).toNumber.abs.le (.fin (1 / 2)) = true) ∧
      (∀ x : ℚ, moveOf (.fin c) (.fin o) = .fin x →
        (card.priceCorrect = some true ↔ |fixed2Value x| ≤ 1 / 2) ∧
        (card.priceBadge = .correct ↔ |fixed2Value x| ≤ 1 / 2) ∧
        (card.priceBadge = .incorrect ↔ ¬ |fixed2Value x| ≤ 1 / 2)) ∧
      card.sentimentBadge ≠ .pending ∧ card.priceBadge ≠ .pending) ∧
    (JSVal.undefined.parseFloat = .nan ∧ JSVal.null.parseFloat = .nan ∧
      (JSVal.num 0).parseFloat = .fin 0) ∧
    (∀ (m : MarketData) (other : JSNum),
      ∃ c1 c2, renderArchiveCards_daily_of moveOf parsed (some m) = .ok c1 ∧
        renderArchiveCards_daily_of moveOf other (some m) = .ok c2 ∧
        (c1.sentimentBadge = .pending ↔ c2.sentimentBadge = .pending) ∧
        (c1.priceBadge = .pending ↔ c2.priceBadge = .pending)) := by
  refine ⟨?_, ⟨rfl, rfl, rfl⟩, ?_⟩
  · have hof := daily_of_complete moveOf parsed o c prev hp ho hc
    have habs : ∀ n : JSNum, ((JSNum.fin 0).sub n).abs = n.abs := by
      intro n
      cases n <;> simp [JSNum.sub, JSNum.abs]
    refine ⟨_, hof, rfl, rfl, rfl, ?_, ?_, ?_, ?_⟩
    · show some _ = some true ↔ _
      rw [habs]
      simp
    · intro x hx
      have hle : ((((JSNum.fin 0).sub (toFixed2 (moveOf (.fin c) (.fin o))).toNumber).abs).le
          (.fin (1 / 2)) = true) ↔ |fixed2Value x| ≤ 1 / 2 := by
        rw [hx, toFixed2_toNumber]
        simp only [JSNum.sub, JSNum.abs, JSNum.le, decide_eq_true_eq, zero_sub, abs_neg]
      refine ⟨?_, ?_, ?_⟩
      · rw [← hle]
        simp
      · rw [← hle]
        cases ((((JSNum.fin 0).sub (toFixed2 (moveOf (.fin c) (.fin o))).toNumber).abs).le
          (.fin (1 / 2))) <;> simp
      · rw [← hle]
        cases ((((JSNum.fin 0).sub (toFixed2 (moveOf (.fin c) (.fin o))).toNumber).abs).le
          (.fin (1 / 2))) <;> simp
    · show (if _ then Badge.correct else Badge.incorrect) ≠ Badge.pending
      split_ifs <;> simp
    · show (if _ then Badge.correct else Badge.incorrect) ≠ Badge.pending
      split_ifs <;> simp
  · intro m other
    refine ⟨_, _, rfl, rfl, ?_, ?_⟩
    · by_cases hcond : (m.close.truthy && m.open_.truthy) = true
      · simp only [hcond, if_true]
        constructor <;> intro h <;> split_ifs at h
      · simp [hcond]
    · by_cases hcond : (m.close.truthy && m.open_.truthy) = true
      · simp only [hcond, if_true]
        constructor <;> intro h <;> split at h <;> simp_all
      · simp [hcond]

/-- Witness of `daily_missing_prediction` at the exact evaluation, a prediction that
parses to `NaN`, open 100 and close 102. -/
theorem daily_missing_prediction_witness :
    (∃ card, renderArchiveCards_daily_of exactMove .nan (some ⟨.num 100, .num 102, .null⟩) =
        .ok card ∧
      card.actualMove = some (toFixed2 (exactMove (.fin 102) (.fin 100))) ∧
      card.predictedMove = .fin 0 ∧ card.predictedDirection = "UP" ∧
      (card.priceCorrect = some true ↔
        (toFixed2 (exactMove (.fin 102) (.fin 100))).toNumber.abs.le (.fin (1 / 2)) = true) ∧
      (∀ x : ℚ, exactMove (.fin 102) (.fin 100) = .fin x →
        (card.priceCorrect = some true ↔ |fixed2Value x| ≤ 1 / 2) ∧
        (card.priceBadge = .correct ↔ |fixed2Value x| ≤ 1 / 2) ∧
        (card.priceBadge = .incorrect ↔ ¬ |fixed2Value x| ≤ 1 / 2)) ∧
      card.sentimentBadge ≠ .pending ∧ card.priceBadge ≠ .pending) ∧
    (JSVal.undefined.parseFloat = .nan ∧ JSVal.null.parseFloat = .nan ∧
      (JSVal.num 0).parseFloat = .fin 0) ∧
    (∀ (m : MarketData) (other : JSNum),
      ∃ c1 c2, renderArchiveCards_daily_of exactMove .nan (some m) = .ok c1 ∧
        renderArchiveCards_daily_of exactMove other (some m) = .ok c2 ∧
        (c1.sentimentBadge = .pending ↔ c2.sentimentBadge = .pending) ∧
        (c1.priceBadge = .pending ↔ c2.priceBadge = .pending)) :=
  daily_missing_prediction exactMove .nan 100 102 .null (Or.inl rfl) (by norm_num)
    (by norm_num)

/-- C23, the code at open 2500 and close 2499.9: the exact actual move is -0.004, below
0, yet the `Actual:` line is written with the sign `+` before the string `-0.00`, in the
colour of a rise. -/
theorem daily_actual_plus_minus :
    ∃ card, renderArchiveCards_daily (.num 1) (some ⟨.num 2500, .num (24999 / 10), .undefined⟩) =
        .ok card ∧
      card.actualMove = some (.dec true 0) ∧
      actualLine card.actualMove = some ⟨"#22c55e", "+", .dec true 0⟩ ∧
      (NumStr.dec true 0).hasMinus = true ∧
      ((24999 / 10 : ℚ) - 2500) / 2500 * 100 < 0 := by
  have hm : fixed2Mag ((24999 / 10 - 2500) / 2500 * 100) = ((0 : ℤ) : ℚ) / 100 := by
    apply fixed2Mag_eq <;> norm_num [abs_of_neg]
  have ha : toFixed2 (.fin ((24999 / 10 - 2500) / 2500 * 100)) = .dec true 0 := by
    simp only [toFixed2, hm]
    norm_num
  refine ⟨_, daily_complete 1 2500 (24999 / 10) .undefined (by norm_num) (by norm_num),
    ?_, ?_, rfl, by norm_num⟩
  · simp only [ha]
  · simp only [ha, actualLine, NumStr.toNumber, JSNum.ge, JSNum.le]
    norm_num

/-- C24, counterexample: for the timeframe WEEKLY, direction UP, close 5 and open `null`
the card shows Accurate, not Missed, since the `null` open compares as 0; and a close
that is `null`, neither absent nor 0, shows Pending Market Close. -/
theorem archive_other_null_open :
    (∃ card, renderArchiveCards_item "WEEKLY" "UP" .undefined
        (some ⟨.null, .num 5, .undefined⟩) = .ok (.inr card) ∧
      card.isCorrect = true ∧ card.result = "Accurate") ∧
    (∃ card, renderArchiveCards_item "WEEKLY" "UP" .undefined
        (some ⟨.num 100, .null, .undefined⟩) = .ok (.inr card) ∧
      card.result = "Pending Market Close") := by
  constructor
  · refine ⟨_, renderArchiveCards_item_other "WEEKLY" "UP" .undefined _ _ (by decide) rfl,
      ?_, ?_⟩
    · simp [JSVal.toNumber, JSNum.gt, JSNum.lt]
    · simp [JSVal.toNumber, JSVal.truthy, JSNum.gt, JSNum.lt]
  · refine ⟨_, renderArchiveCards_item_other "WEEKLY" "UP" .undefined _ _ (by decide) rfl, ?_⟩
    simp [JSVal.truthy]

/-- C24, amended: for every timeframe other than `DAILY` the card shows Pending Market
Close iff close is absent, `null` or 0, and otherwise shows Accurate iff (direction UP
and `close > open`) or (direction DOWN and `close < open`), as JavaScript compares them:
an absent open makes both comparisons false, a `null` open compares as 0. A NEUTRAL
prediction is never Accurate, and a record with a non-zero close and an absent open is
shown as Missed. -/
theorem archive_other_verdict (tf d : String) (pm : JSVal) (m : MarketData)
    (htf : tf ≠ "DAILY") :
    ∃ card, renderArchiveCards_item tf d pm (some m) = .ok (.inr card) ∧
      (card.result = "Pending Market Close" ↔
        m.close = .undefined ∨ m.close = .null ∨ m.close = .num 0) ∧
      (card.result = "Accurate" ↔
        m.close.truthy = true ∧
          ((d = "UP" ∧ m.close.toNumber.gt m.open_.toNumber = true) ∨
            (d = "DOWN" ∧ m.close.toNumber.lt m.open_.toNumber = true))) ∧
      (card.result = "Missed" ↔
        m.close.truthy = true ∧
          ¬ ((d = "UP" ∧ m.close.toNumber.gt m.open_.toNumber = true) ∨
            (d = "DOWN" ∧ m.close.toNumber.lt m.open_.toNumber = true))) ∧
      (∀ o c : ℚ, m.open_ = .num o → m.close = .num c → c ≠ 0 →
        (card.result = "Accurate" ↔ (d = "UP" ∧ o < c) ∨ (d = "DOWN" ∧ c < o))) ∧
      (d = "NEUTRAL" → card.result ≠ "Accurate") ∧
      (m.close.truthy = true → m.open_ = .undefined → card.result = "Missed") ∧
      (∀ c : ℚ, m.open_ = .null → m.close = .num c → c ≠ 0 →
        (card.result = "Accurate" ↔ (d = "UP" ∧ 0 < c) ∨ (d = "DOWN" ∧ c < 0))) := by
  obtain ⟨card, hcard, hic, hsb, hres⟩ := renderArchiveCards_other_spec d m
  have htr : m.close.truthy = false ↔
      m.close = .undefined ∨ m.close = .null ∨ m.close = .num 0 := by
    cases hcl : m.close <;> simp [JSVal.truthy]
  have hacc : card.result = "Accurate" ↔ m.close.truthy = true ∧ card.isCorrect = true := by
    rw [hres, hsb]
    cases m.close.truthy <;> cases card.isCorrect <;> simp
  have hmis : card.result = "Missed" ↔ m.close.truthy = true ∧ ¬ card.isCorrect = true := by
    rw [hres, hsb]
    cases m.close.truthy <;> cases card.isCorrect <;> simp
  have hpen : card.result = "Pending Market Close" ↔ m.close.truthy = false := by
    rw [hres, hsb]
    cases m.close.truthy <;> cases card.isCorrect <;> simp
  refine ⟨card, renderArchiveCards_item_other tf d pm _ card htf hcard, hpen.trans htr,
    ?_, ?_, ?_, ?_, ?_, ?_⟩
  · rw [hacc, hic]
  · rw [hmis, hic]
  · intro o c ho hc hc0
    rw [hacc, hic, ho, hc]
    simp [JSVal.truthy, JSVal.toNumber, JSNum.gt, JSNum.lt, hc0]
  · intro hd h
    rw [hacc, hic, hd] at h
    simp at h
  · intro ht ho
    rw [hmis, hic, ho]
    refine ⟨ht, ?_⟩
    cases hcl : m.close <;> simp [JSVal.toNumber, JSNum.gt, JSNum.lt]
  · intro c ho hc hc0
    rw [hacc, hic, ho, hc]
    simp [JSVal.truthy, JSVal.toNumber, JSNum.gt, JSNum.lt, hc0]

/-- Witness of `archive_other_verdict` at the timeframe WEEKLY, direction UP, open 100
and close 102. -/
theorem archive_other_verdict_witness :
    ∃ card, renderArchiveCards_item "WEEKLY" "UP" (.num 1)
        (some ⟨.num 100, .num 102, .null⟩) = .ok (.inr card) ∧
      (card.result = "Pending Market Close" ↔
        (JSVal.num 102) = .undefined ∨ (JSVal.num 102) = .null ∨ (JSVal.num 102) = .num 0) ∧
      (card.result = "Accurate" ↔
        (JSVal.num 102).truthy = true ∧
          (("UP" = "UP" ∧ (JSVal.num 102).toNumber.gt (JSVal.num 100).toNumber = true) ∨
            ("UP" = "DOWN" ∧ (JSVal.num 102).toNumber.lt (JSVal.num 100).toNumber = true))) ∧
      (card.result = "Missed" ↔
        (JSVal.num 102).truthy = true ∧
          ¬ (("UP" = "UP" ∧ (JSVal.num 102).toNumber.gt (JSVal.num 100).toNumber = true) ∨
            ("UP" = "DOWN" ∧ (JSVal.num 102).toNumber.lt (JSVal.num 100).toNumber = true))) ∧
      (∀ o c : ℚ, JSVal.num 100 = .num o → JSVal.num 102 = .num c → c ≠ 0 →
        (card.result = "Accurate" ↔ ("UP" = "UP" ∧ o < c) ∨ ("UP" = "DOWN" ∧ c < o))) ∧
      ("UP" = "NEUTRAL" → card.result ≠ "Accurate") ∧
      ((JSVal.num 102).truthy = true → JSVal.num 100 = .undefined → card.result = "Missed") ∧
      (∀ c : ℚ, JSVal.num 100 = .null → JSVal.num 102 = .num c → c ≠ 0 →
        (card.result = "Accurate" ↔ ("UP" = "UP" ∧ 0 < c) ∨ ("UP" = "DOWN" ∧ c < 0))) :=
  archive_other_verdict "WEEKLY" "UP" (.num 1) ⟨.num 100, .num 102, .null⟩ (by decide)

/-- C25: for every direction among UP and DOWN and every open and close above 0, the
history verdict of `renderCards` (Correct or Missed) equals the verdict of
`renderArchiveCards` for a timeframe other than `DAILY` (Accurate or Missed) on the same
direction, open and close. -/
theorem history_matches_archive (tf d : String) (pm prev : JSVal) (o c : ℚ)
    (htf : tf ≠ "DAILY") (hd : d = "UP" ∨ d = "DOWN") (ho : 0 < o) (hc : 0 < c) :
    ∃ perf card,
      renderCards_performance true (some ⟨d⟩) (some ⟨.num c, .num o⟩) = some perf ∧
      renderArchiveCards_item tf d pm (some ⟨.num o, .num c, prev⟩) = .ok (.inr card) ∧
      perf.predictionCorrect = card.isCorrect ∧
      (perf.verdict = "Correct" ↔ card.result = "Accurate") ∧
      (perf.verdict = "Missed" ↔ card.result = "Missed") := by
  obtain ⟨perf, hp, -, hcor, hv⟩ := renderCards_complete (some ⟨d⟩) o c ho.ne' hc.ne'
  obtain ⟨card, hcard, hic, hsb, hres⟩ :=
    renderArchiveCards_other_spec d ⟨.num o, .num c, prev⟩
  have hdir : ((some (⟨d⟩ : Prediction)).getD ⟨"NEUTRAL"⟩).direction = d := rfl
  rw [hdir] at hcor
  have hN : d ≠ "NEUTRAL" := by
    rcases hd with h | h <;> rw [h] <;> decide
  have hpos : 0 < (c - o) / o * 100 ↔ o < c := by
    rw [show (c - o) / o * 100 = (c - o) * (100 / o) by ring]
    rw [mul_pos_iff_of_pos_right (by positivity)]
    exact sub_pos
  have hneg : (c - o) / o * 100 < 0 ↔ c < o := by
    rw [show (c - o) / o * 100 = (c - o) * (100 / o) by ring]
    rw [mul_neg_iff]
    have h100 : (0 : ℚ) < 100 / o := by positivity
    constructor
    · rintro (⟨_, h⟩ | ⟨h, _⟩)
      · linarith
      · linarith
    · intro h
      exact Or.inr ⟨by linarith, h100⟩
  have heq : perf.predictionCorrect = card.isCorrect := by
    rw [Bool.eq_iff_iff, hcor, hic, hpos, hneg]
    simp [hN, JSVal.toNumber, JSNum.gt, JSNum.lt]
  have htrue : (JSVal.num c).truthy = true := by simp [JSVal.truthy, hc.ne']
  have hres2 : card.result = if card.isCorrect then "Accurate" else "Missed" := by
    rw [hres, hsb]
    simp [htrue]
  refine ⟨perf, card, hp, renderArchiveCards_item_other tf d pm _ card htf hcard, heq, ?_, ?_⟩
  · rw [hv, hres2, heq]
    cases card.isCorrect <;> simp
  · rw [hv, hres2, heq]
    cases card.isCorrect <;> simp

/-- Witness of `history_matches_archive` at the timeframe WEEKLY, direction DOWN, open
100 and close 90. -/
theorem history_matches_archive_witness :
    ∃ perf card,
      renderCards_performance true (some ⟨"DOWN"⟩) (some ⟨.num 90, .num 100⟩) = some perf ∧
      renderArchiveCards_item "WEEKLY" "DOWN" (.num (-1)) (some ⟨.num 100, .num 90, .null⟩) =
        .ok (.inr card) ∧
      perf.predictionCorrect = card.isCorrect ∧
      (perf.verdict = "Correct" ↔ card.result = "Accurate") ∧
      (perf.verdict = "Missed" ↔ card.result = "Missed") :=
  history_matches_archive "WEEKLY" "DOWN" (.num (-1)) .null 100 90 (by decide)
    (Or.inr rfl) (by norm_num) (by norm_num)

end Researcher
